import Mathlib

/-!
Verification of the mock-data-fallback data-access layer of a second-hand
book marketplace app.

The services under `src/services` (and the user service) attempt remote
(Supabase) operations and fall back to an in-memory fixture store when the
backing relation is missing.  This file shallowly embeds those services:

* module-level mutable collections (`mockConversations`, `mockMessages`,
  `mockFavorites`, `mockWishlist`) become explicit state records threaded
  through the operations;
* `async` methods returning results or throwing become functions into
  `Except String _`;
* the remote store is modelled through its contract: a query with an
  `order('created_at', { ascending: false })` clause returns the matching
  rows sorted by `created_at` descending (timestamps are ISO-8601 strings,
  whose lexicographic order is the chronological order);
* JS `number` values that the code only stores and compares (prices,
  ratings) are represented as integers in hundredths (`12.99` ↦ `1299`);
  the code performs no arithmetic on them, so this order-isomorphic
  representation is faithful;
* JS strings become `String`; the JS helpers used by the code
  (`padStart`, `includes`, `toLowerCase`, `split`, template interpolation
  of numbers) are defined below on `List Char` so that they compute.
-/

/-! ## String primitives (models of the JS string operations used) -/

/-- Decimal digits, least significant first, with explicit fuel (the
first argument) so that the definition is structural and computes in the
kernel. -/
def natDigitsLEFuel : Nat → Nat → List Nat
  | fuel + 1, n + 1 => ((n + 1) % 10) :: natDigitsLEFuel fuel ((n + 1) / 10)
  | _, _ => []

/-- Decimal digits of a natural number, least significant first
(`natDigitsLE 0 = []`). -/
def natDigitsLE (n : Nat) : List Nat :=
  natDigitsLEFuel n n

/-- The character for one decimal digit. -/
def digitChar : Nat → Char
  | 0 => '0'
  | 1 => '1'
  | 2 => '2'
  | 3 => '3'
  | 4 => '4'
  | 5 => '5'
  | 6 => '6'
  | 7 => '7'
  | 8 => '8'
  | _ => '9'

/-- Decimal rendering of a natural number (the JS template interpolation
of a number), as a character list. -/
def natStrChars (n : Nat) : List Char :=
  if n = 0 then ['0'] else ((natDigitsLE n).reverse.map digitChar)

/-- JS `String.prototype.padStart(target, pad)` on character lists. -/
def padStartChars (l : List Char) (target : Nat) (pad : Char) : List Char :=
  List.replicate (target - l.length) pad ++ l

/-- Lexicographic `≤` on character lists, comparing code points; the
order used on ISO-8601 timestamp strings (for which it agrees with the
chronological order used by the JS code via `Date.getTime`). -/
def lexLe : List Char → List Char → Bool
  | [], _ => true
  | _ :: _, [] => false
  | a :: as, b :: bs =>
    if a.toNat < b.toNat then true
    else if b.toNat < a.toNat then false
    else lexLe as bs

/-- `≤` on strings via `lexLe`. -/
def strLe (a b : String) : Bool :=
  lexLe a.data b.data

/-- Does the list start with the given needle? (model of prefix testing
used by `containsChars`). -/
def startsWithChars : List Char → List Char → Bool
  | _, [] => true
  | [], _ :: _ => false
  | a :: as, b :: bs => a = b && startsWithChars as bs

/-- Does the haystack contain the needle as a contiguous run?
(JS `String.prototype.includes`). -/
def containsChars (needle : List Char) : List Char → Bool
  | [] => startsWithChars [] needle
  | a :: as => startsWithChars (a :: as) needle || containsChars needle as

/-- JS `includes` on strings. -/
def jsIncludes (s needle : String) : Bool :=
  containsChars needle.data s.data

/-- JS `toLowerCase` for ASCII, on one character. -/
def charLower (c : Char) : Char :=
  if 65 ≤ c.toNat ∧ c.toNat ≤ 90 then Char.ofNat (c.toNat + 32) else c

/-- JS `toLowerCase` for ASCII strings. -/
def strLower (s : String) : String :=
  String.mk (s.data.map charLower)

/-- JS `String.prototype.split(sep)` on character lists. -/
def splitOnChar (sep : Char) : List Char → List (List Char)
  | [] => [[]]
  | c :: cs =>
    match splitOnChar sep cs with
    | [] => [[c]]
    | g :: gs => if c = sep then [] :: g :: gs else (c :: g) :: gs

/-- JS `split` on strings. -/
def jsSplit (s : String) (sep : Char) : List String :=
  (splitOnChar sep s.data).map String.mk

/-! ## Generic list helpers used by the embedding -/

/-- JS assignment `arr[i] = f(arr[i])`: modify the element at an index. -/
def listModify (l : List α) (i : Nat) (f : α → α) : List α :=
  match l, i with
  | [], _ => []
  | a :: as, 0 => f a :: as
  | a :: as, i + 1 => a :: listModify as i f

/-- JS `Array.prototype.findIndex` (with `none` for `-1`). -/
def jsFindIdx (p : α → Bool) : List α → Option Nat
  | [] => none
  | a :: as => if p a then some 0 else (jsFindIdx p as).map (· + 1)

/-- One step of sorting in descending order of a string key. -/
def insertByDesc (key : α → String) (x : α) : List α → List α
  | [] => [x]
  | y :: ys => if strLe (key y) (key x) then x :: y :: ys else y :: insertByDesc key x ys

/-- Sort in descending order of a string key (model of the JS
`sort((a, b) => dateB - dateA)` calls and of the remote store's
`order(column, { ascending: false })` contract). -/
def sortByDesc (key : α → String) : List α → List α
  | [] => []
  | x :: xs => insertByDesc key x (sortByDesc key xs)

/-- The result list is pairwise ordered: every element's key is ≥ every
later element's key. -/
def SortedByDesc (key : α → String) (l : List α) : Prop :=
  List.Pairwise (fun a b => strLe (key b) (key a) = true) l

/-! ## Data model (src/services interfaces) -/

/-- `Conversation` (src/services/MessageService.ts). -/
structure Conversation where
  id : String
  listing_id : String
  buyer_id : String
  seller_id : String
  created_at : String
  last_message_at : String
  is_active : Bool
  deriving DecidableEq, Repr

/-- `Message` (src/services/MessageService.ts). -/
structure Message where
  id : String
  conversation_id : String
  sender_id : String
  receiver_id : String
  content : String
  created_at : String
  read : Bool
  deriving DecidableEq, Repr

/-- The `otherUser` summary inside `ConversationWithDetails`. -/
structure OtherUserInfo where
  id : String
  name : String
  profileImage : Option String
  deriving DecidableEq, Repr

/-- The `listing` summary inside `ConversationWithDetails`. -/
structure ListingInfo where
  id : String
  title : String
  image_url : Option String
  price : Int
  deriving DecidableEq, Repr

/-- `ConversationWithDetails` (src/services/MessageService.ts). -/
structure ConversationWithDetails extends Conversation where
  unreadCount : Nat
  lastMessage : Option String
  otherUser : OtherUserInfo
  listing : ListingInfo
  deriving DecidableEq, Repr

/-- `MockUser` (src/utils/mockData.ts); also the shape of the `User`
objects resolved by the user service's fixture path.  `rating` is in
hundredths (`4.7` ↦ `470`). -/
structure MockUser where
  id : String
  email : String
  name : String
  profileImage : Option String
  joinDate : String
  rating : Int
  bio : Option String
  location : Option String
  phone : Option String
  deriving DecidableEq, Repr

/-- `UserProfileUpdate` (partial profile update payload; an absent JS
key is `none`). -/
structure UserProfileUpdate where
  name : Option String
  profileImage : Option String
  bio : Option String
  location : Option String
  phone : Option String
  deriving DecidableEq, Repr

/-- `BookListing` (src/services/BookService.ts); `price` is in
hundredths. -/
structure BookListing where
  id : String
  title : String
  author : String
  price : Int
  condition : String
  description : Option String
  image_url : Option String
  category : Option String
  edition : Option String
  isbn : Option String
  publisher : Option String
  publication_year : Option Int
  is_negotiable : Option Bool
  exchange_option : Option Bool
  seller_id : String
  created_at : String
  deriving DecidableEq, Repr

/-- `BookFilterOptions` (src/services/BookService.ts). -/
structure BookFilterOptions where
  categories : Option (List String)
  conditions : Option (List String)
  minPrice : Option Int
  maxPrice : Option Int
  isNegotiable : Option Bool
  exchangeOption : Option Bool
  deriving DecidableEq, Repr

/-- `SavedItemType` (src/services/SavedItemsService.ts). -/
inductive SavedItemType where
  | FAVORITE
  | WISHLIST
  deriving DecidableEq, Repr

/-! ## Authentication (src/utils/auth.ts) -/

/-- `getUserId` (src/utils/auth.ts): the session is modelled as
`Option String` (the signed-in user id, if any); with no session the
function THROWS `Not authenticated` (it never resolves with a null id).
The transport-error branch, which also throws, is subsumed by the
`none` case. -/
def getUserId (session : Option String) : Except String String :=
  match session with
  | some uid => .ok uid
  | none => .error "Not authenticated"

/-! ## Fixture identifiers (src/services/MessageService.ts)

New fixture messages get id `` `msg-${mockMessages.length + 1}`.padStart(7, '0') ``
and new fixture conversations get id
`` `conv-${mockConversations.length + 1}`.padStart(7, '0') ``. -/

/-- Id of a fixture message created when the store holds `n - 1`
messages. -/
def mkMsgId (n : Nat) : String :=
  String.mk (padStartChars (['m', 's', 'g', '-'] ++ natStrChars n) 7 '0')

/-- Id of a fixture conversation created when the store holds `n - 1`
conversations. -/
def mkConvId (n : Nat) : String :=
  String.mk (padStartChars (['c', 'o', 'n', 'v', '-'] ++ natStrChars n) 7 '0')

/-! ## Seed data (src/utils/mockData.ts and the seeds in
src/services/MessageService.ts) -/

/-- `mockUsers` (src/utils/mockData.ts); ratings in hundredths. -/
def mockUsers : List MockUser :=
  [ { id := "user-001", email := "john.smith@example.com", name := "John Smith",
      profileImage := some "https://randomuser.me/api/portraits/men/12.jpg",
      joinDate := "2023-01-15T08:30:00Z", rating := 470,
      bio := some "Avid reader and book collector. I love science fiction and philosophy books!",
      location := some "San Francisco, CA", phone := some "(555) 123-4567" },
    { id := "user-002", email := "emily.wong@example.com", name := "Emily Wong",
      profileImage := some "https://randomuser.me/api/portraits/women/23.jpg",
      joinDate := "2023-02-24T14:15:30Z", rating := 490,
      bio := some "English Literature student with a passion for classics and poetry.",
      location := some "Boston, MA", phone := some "(555) 234-5678" },
    { id := "user-003", email := "michael.rodriguez@example.com", name := "Michael Rodriguez",
      profileImage := some "https://randomuser.me/api/portraits/men/45.jpg",
      joinDate := "2023-03-10T09:45:00Z", rating := 420,
      bio := some "History teacher and collector of historical texts and biographies.",
      location := some "Chicago, IL", phone := some "(555) 345-6789" },
    { id := "user-004", email := "sarah.johnson@example.com", name := "Sarah Johnson",
      profileImage := some "https://randomuser.me/api/portraits/women/67.jpg",
      joinDate := "2023-04-05T16:20:00Z", rating := 460,
      bio := some "Medical student with a large collection of textbooks and medical references.",
      location := some "Seattle, WA", phone := some "(555) 456-7890" },
    { id := "user-005", email := "david.kim@example.com", name := "David Kim",
      profileImage := some "https://randomuser.me/api/portraits/men/89.jpg",
      joinDate := "2023-05-18T11:30:00Z", rating := 450,
      bio := some "Computer scientist and tech enthusiast with a large collection of programming books.",
      location := some "Austin, TX", phone := some "(555) 567-8901" } ]

/-- `getMockSellerById` (src/utils/mockData.ts). -/
def getMockSellerById (sellerId : String) : Option MockUser :=
  mockUsers.find? (fun user => user.id == sellerId)

/-- `mockListings` (src/utils/mockData.ts); prices in hundredths. -/
def mockListings : List BookListing :=
  [ { id := "book-001", title := "The Great Gatsby", author := "F. Scott Fitzgerald",
      price := 1299, condition := "Good",
      description := some "Classic novel set in the roaring 20s. Minor wear on cover, but pages are in good condition.",
      image_url := some "https://m.media-amazon.com/images/I/71FTb9X6wsL._AC_UF1000,1000_QL80_.jpg",
      category := some "Fiction", edition := some "2nd Edition", isbn := some "9780743273565",
      publisher := some "Scribner", publication_year := some 2004,
      is_negotiable := some true, exchange_option := some false,
      seller_id := "user-001", created_at := "2023-06-15T09:30:00Z" },
    { id := "book-002", title := "To Kill a Mockingbird", author := "Harper Lee",
      price := 1050, condition := "Like New",
      description := some "Pulitzer Prize-winning novel. Book is practically new, only read once.",
      image_url := some "https://m.media-amazon.com/images/I/71FXlF2uRUL._AC_UF1000,1000_QL80_.jpg",
      category := some "Fiction", edition := some "50th Anniversary Edition", isbn := some "9780061120084",
      publisher := some "Harper Perennial", publication_year := some 2006,
      is_negotiable := some false, exchange_option := some true,
      seller_id := "user-002", created_at := "2023-06-18T14:45:00Z" },
    { id := "book-003", title := "A Brief History of Time", author := "Stephen Hawking",
      price := 1575, condition := "Very Good",
      description := some "Landmark book on cosmology. Some highlighting on first few chapters, otherwise excellent condition.",
      image_url := some "https://m.media-amazon.com/images/I/A1xkFZX5k-L._AC_UF1000,1000_QL80_.jpg",
      category := some "Non-Fiction", edition := some "Updated Edition", isbn := some "9780553380163",
      publisher := some "Bantam", publication_year := some 1998,
      is_negotiable := some true, exchange_option := some false,
      seller_id := "user-003", created_at := "2023-06-20T10:15:00Z" },
    { id := "book-004", title := "Gray\x27s Anatomy for Students",
      author := "Richard Drake, A. Wayne Vogl, Adam W. M. Mitchell",
      price := 4500, condition := "Good",
      description := some "Essential medical textbook. Has sticky notes and some underlining in important sections.",
      image_url := some "https://m.media-amazon.com/images/I/81sXBhe5vzL._AC_UF1000,1000_QL80_.jpg",
      category := some "Textbook", edition := some "4th Edition", isbn := some "9780323393041",
      publisher := some "Elsevier", publication_year := some 2019,
      is_negotiable := some true, exchange_option := some true,
      seller_id := "user-004", created_at := "2023-06-22T16:30:00Z" },
    { id := "book-005", title := "Clean Code: A Handbook of Agile Software Craftsmanship",
      author := "Robert C. Martin",
      price := 2850, condition := "Very Good",
      description := some "Essential guide for programmers. Spine is intact, pages clean with minimal notes.",
      image_url := some "https://m.media-amazon.com/images/I/61KNobh6xpL._AC_UF1000,1000_QL80_.jpg",
      category := some "Computer Science", edition := some "1st Edition", isbn := some "9780132350884",
      publisher := some "Prentice Hall", publication_year := some 2008,
      is_negotiable := some false, exchange_option := some false,
      seller_id := "user-005", created_at := "2023-06-24T11:00:00Z" },
    { id := "book-006", title := "1984", author := "George Orwell",
      price := 999, condition := "Acceptable",
      description := some "Classic dystopian novel. Some wear on cover and several dog-eared pages, but text is all readable.",
      image_url := some "https://m.media-amazon.com/images/I/71lrXHj5HzL._AC_UF1000,1000_QL80_.jpg",
      category := some "Fiction", edition := some "Signet Classic", isbn := some "9780451524935",
      publisher := some "Signet Classic", publication_year := some 1961,
      is_negotiable := some true, exchange_option := some true,
      seller_id := "user-001", created_at := "2023-06-26T13:20:00Z" },
    { id := "book-007", title := "Pride and Prejudice", author := "Jane Austen",
      price := 875, condition := "Good",
      description := some "Classic romance novel. Well-preserved vintage edition with beautiful cover art.",
      image_url := some "https://m.media-amazon.com/images/I/71Q1tPupKjL._AC_UF1000,1000_QL80_.jpg",
      category := some "Fiction", edition := some "Vintage Classics", isbn := some "9780679783268",
      publisher := some "Vintage", publication_year := some 2000,
      is_negotiable := some false, exchange_option := some false,
      seller_id := "user-002", created_at := "2023-06-28T09:45:00Z" },
    { id := "book-008", title := "Sapiens: A Brief History of Humankind", author := "Yuval Noah Harari",
      price := 1499, condition := "Like New",
      description := some "Bestselling history of humanity. Read once, practically new condition.",
      image_url := some "https://m.media-amazon.com/images/I/71N3-2sYDRL._AC_UF1000,1000_QL80_.jpg",
      category := some "Non-Fiction", edition := some "1st Edition", isbn := some "9780062316097",
      publisher := some "Harper", publication_year := some 2015,
      is_negotiable := some true, exchange_option := some false,
      seller_id := "user-003", created_at := "2023-06-30T15:10:00Z" },
    { id := "book-009", title := "Principles of Neural Science",
      author := "Eric Kandel, John D. Koester, Sarah H. Mack, Steven Siegelbaum",
      price := 7500, condition := "Very Good",
      description := some "Standard neuroscience textbook. Well-maintained with minimal highlighting.",
      image_url := some "https://m.media-amazon.com/images/I/91HULcIFgbL._AC_UF1000,1000_QL80_.jpg",
      category := some "Textbook", edition := some "6th Edition", isbn := some "9781259642234",
      publisher := some "McGraw Hill", publication_year := some 2021,
      is_negotiable := some true, exchange_option := some false,
      seller_id := "user-004", created_at := "2023-07-02T10:30:00Z" },
    { id := "book-010", title := "Design Patterns: Elements of Reusable Object-Oriented Software",
      author := "Erich Gamma, Richard Helm, Ralph Johnson, John Vlissides",
      price := 3250, condition := "Good",
      description := some "The famous \"Gang of Four\" book. Some notes in margins but all text is readable.",
      image_url := some "https://m.media-amazon.com/images/I/51szD9HC9pL._AC_UF1000,1000_QL80_.jpg",
      category := some "Computer Science", edition := some "1st Edition", isbn := some "9780201633610",
      publisher := some "Addison-Wesley Professional", publication_year := some 1994,
      is_negotiable := some false, exchange_option := some true,
      seller_id := "user-005", created_at := "2023-07-05T14:00:00Z" },
    { id := "book-011", title := "The Catcher in the Rye", author := "J.D. Salinger",
      price := 1125, condition := "Good",
      description := some "Classic coming-of-age novel. Some wear on cover edges but pages are clean.",
      image_url := some "https://m.media-amazon.com/images/I/91HPG31dTwL._AC_UF1000,1000_QL80_.jpg",
      category := some "Fiction", edition := some "First Back Bay Paperback", isbn := some "9780316769488",
      publisher := some "Little, Brown and Company", publication_year := some 1991,
      is_negotiable := some true, exchange_option := some false,
      seller_id := "user-001", created_at := "2023-07-08T11:45:00Z" },
    { id := "book-012", title := "The Alchemist", author := "Paulo Coelho",
      price := 1000, condition := "Very Good",
      description := some "International bestseller. Minimal wear, spine unbroken.",
      image_url := some "https://m.media-amazon.com/images/I/51Z0nLAfLmL._AC_UF1000,1000_QL80_.jpg",
      category := some "Fiction", edition := some "25th Anniversary Edition", isbn := some "9780062315007",
      publisher := some "HarperOne", publication_year := some 2014,
      is_negotiable := some false, exchange_option := some true,
      seller_id := "user-002", created_at := "2023-07-10T16:20:00Z" },
    { id := "book-013", title := "A Short History of Nearly Everything", author := "Bill Bryson",
      price := 1650, condition := "Like New",
      description := some "Award-winning science book. Only read once, no marks or damage.",
      image_url := some "https://m.media-amazon.com/images/I/71r4oZgV5jL._AC_UF1000,1000_QL80_.jpg",
      category := some "Non-Fiction", edition := some "Illustrated Edition", isbn := some "9780307885159",
      publisher := some "Broadway Books", publication_year := some 2010,
      is_negotiable := some true, exchange_option := some false,
      seller_id := "user-003", created_at := "2023-07-12T09:15:00Z" },
    { id := "book-014", title := "Harrison\x27s Principles of Internal Medicine",
      author := "J. Larry Jameson, Anthony S. Fauci, Dennis L. Kasper, Stephen L. Hauser, Dan L. Longo, Joseph Loscalzo",
      price := 9500, condition := "Good",
      description := some "Comprehensive medical reference. Some highlighting in first few chapters.",
      image_url := some "https://m.media-amazon.com/images/I/91KsKd3UOiL._AC_UF1000,1000_QL80_.jpg",
      category := some "Textbook", edition := some "20th Edition", isbn := some "9781259644030",
      publisher := some "McGraw-Hill Education", publication_year := some 2018,
      is_negotiable := some true, exchange_option := some false,
      seller_id := "user-004", created_at := "2023-07-15T14:30:00Z" },
    { id := "book-015", title := "JavaScript: The Good Parts", author := "Douglas Crockford",
      price := 2299, condition := "Very Good",
      description := some "Classic programming book. Some dog-eared pages but otherwise in great shape.",
      image_url := some "https://m.media-amazon.com/images/I/81kqrwS1nNL._AC_UF1000,1000_QL80_.jpg",
      category := some "Computer Science", edition := some "1st Edition", isbn := some "9780596517748",
      publisher := some "O\x27Reilly Media", publication_year := some 2008,
      is_negotiable := some false, exchange_option := some true,
      seller_id := "user-005", created_at := "2023-07-18T10:00:00Z" } ]

/-- `getMockListingById` (src/utils/mockData.ts). -/
def getMockListingById (listingId : String) : Option BookListing :=
  mockListings.find? (fun listing => listing.id == listingId)

/-- `getMockListingsBySeller` (src/utils/mockData.ts). -/
def getMockListingsBySeller (sellerId : String) : List BookListing :=
  mockListings.filter (fun listing => listing.seller_id == sellerId)

/-! ## Messaging service (src/services/MessageService.ts)

The module-level mutable arrays `mockConversations` / `mockMessages` are
threaded as a `MsgState`.  `USE_MOCK_DATA` is the compile-time constant
`false`; `DETECTED_MISSING_TABLES` is runtime state, passed explicitly
where routing is modelled. -/

/-- The messaging fixture store (`mockConversations`, `mockMessages`). -/
structure MsgState where
  conversations : List Conversation
  messages : List Message
  deriving DecidableEq, Repr

namespace MessageService

/-- `USE_MOCK_DATA` (src/services/MessageService.ts line 8). -/
def USE_MOCK_DATA : Bool := false

/-- The seeded `mockConversations`. -/
def seedConversations : List Conversation :=
  [ { id := "conv-001", listing_id := "book-001", buyer_id := "user-002",
      seller_id := "user-001", created_at := "2023-08-10T09:15:00Z",
      last_message_at := "2023-08-12T14:30:00Z", is_active := true },
    { id := "conv-002", listing_id := "book-005", buyer_id := "user-001",
      seller_id := "user-005", created_at := "2023-08-15T11:20:00Z",
      last_message_at := "2023-08-15T16:45:00Z", is_active := true } ]

/-- The seeded `mockMessages`. -/
def seedMessages : List Message :=
  [ { id := "msg-001", conversation_id := "conv-001", sender_id := "user-002",
      receiver_id := "user-001", content := "Hi, is this book still available?",
      created_at := "2023-08-10T09:15:00Z", read := true },
    { id := "msg-002", conversation_id := "conv-001", sender_id := "user-001",
      receiver_id := "user-002", content := "Yes, it is still available. Are you interested?",
      created_at := "2023-08-10T10:30:00Z", read := true },
    { id := "msg-003", conversation_id := "conv-001", sender_id := "user-002",
      receiver_id := "user-001", content := "Great! Would you consider a lower price?",
      created_at := "2023-08-12T14:30:00Z", read := false },
    { id := "msg-004", conversation_id := "conv-002", sender_id := "user-001",
      receiver_id := "user-005",
      content := "Hello, I\x27m interested in your programming book. Is it still available?",
      created_at := "2023-08-15T11:20:00Z", read := true },
    { id := "msg-005", conversation_id := "conv-002", sender_id := "user-005",
      receiver_id := "user-001",
      content := "Yes, it\x27s still available. It\x27s in great condition.",
      created_at := "2023-08-15T13:05:00Z", read := true },
    { id := "msg-006", conversation_id := "conv-002", sender_id := "user-001",
      receiver_id := "user-005", content := "Perfect! When can we meet for the exchange?",
      created_at := "2023-08-15T16:45:00Z", read := false } ]

/-- The initial fixture store. -/
def seedMsgState : MsgState :=
  { conversations := seedConversations, messages := seedMessages }

/-- The `if (convIndex !== -1) mockConversations[convIndex].last_message_at = t`
pattern after `findIndex(conv => conv.id === cid)`. -/
def setConvLastMessageAt (convs : List Conversation) (cid t : String) : List Conversation :=
  match jsFindIdx (fun conv => conv.id == cid) convs with
  | some i => listModify convs i (fun conv => { conv with last_message_at := t })
  | none => convs

/-- Fixture path of `sendMessage` (lines 458–503); `now` is the value of
`new Date().toISOString()` at the call. -/
def sendMessageMock (session : Option String) (conversationId content now : String)
    (st : MsgState) : Except String (Message × MsgState) :=
  match getUserId session with
  | .error e => .error e
  | .ok userId =>
    if userId = "" then .error "User must be logged in to send messages"
    else
      match st.conversations.find? (fun conv => conv.id == conversationId) with
      | none => .error "Conversation not found"
      | some conversation =>
        let receiverId :=
          if conversation.buyer_id == userId then conversation.seller_id
          else conversation.buyer_id
        let newMessage : Message :=
          { id := mkMsgId (st.messages.length + 1), conversation_id := conversationId,
            sender_id := userId, receiver_id := receiverId, content := content,
            created_at := now, read := false }
        .ok (newMessage,
          { conversations := setConvLastMessageAt st.conversations conversationId newMessage.created_at,
            messages := st.messages ++ [newMessage] })

/-- Fixture path of `markMessagesAsRead` (lines 556–577). -/
def markMessagesAsReadMock (session : Option String) (conversationId : String)
    (st : MsgState) : Except String MsgState :=
  match getUserId session with
  | .error e => .error e
  | .ok userId =>
    if userId = "" then .error "User must be logged in to mark messages as read"
    else
      .ok { st with
        messages := st.messages.map (fun msg =>
          if msg.conversation_id == conversationId && msg.receiver_id == userId then
            { msg with read := true }
          else msg) }

/-- Fixture path of `startConversation` (lines 599–674).  When an existing
conversation is found, the source resolves the very array element that the
index assignment just mutated, so the returned conversation carries the
bumped `last_message_at`. -/
def startConversationMock (session : Option String)
    (listingId sellerId initialMessage now : String)
    (st : MsgState) : Except String (Conversation × MsgState) :=
  match getUserId session with
  | .error e => .error e
  | .ok userId =>
    if userId = "" then .error "User must be logged in to start a conversation"
    else if userId == sellerId then .error "Cannot start a conversation with yourself"
    else
      match st.conversations.find? (fun conv =>
          conv.listing_id == listingId && conv.buyer_id == userId &&
          conv.seller_id == sellerId) with
      | some existingConversation =>
        let newMessage : Message :=
          { id := mkMsgId (st.messages.length + 1),
            conversation_id := existingConversation.id,
            sender_id := userId, receiver_id := sellerId, content := initialMessage,
            created_at := now, read := false }
        .ok ({ existingConversation with last_message_at := newMessage.created_at },
          { conversations := setConvLastMessageAt st.conversations existingConversation.id
              newMessage.created_at,
            messages := st.messages ++ [newMessage] })
      | none =>
        let newConversation : Conversation :=
          { id := mkConvId (st.conversations.length + 1), listing_id := listingId,
            buyer_id := userId, seller_id := sellerId, created_at := now,
            last_message_at := now, is_active := true }
        let newMessage : Message :=
          { id := mkMsgId (st.messages.length + 1),
            conversation_id := newConversation.id,
            sender_id := userId, receiver_id := sellerId, content := initialMessage,
            created_at := now, read := false }
        .ok (newConversation,
          { conversations := st.conversations ++ [newConversation],
            messages := st.messages ++ [newMessage] })

/-- Fixture path of `getConversations` (lines 146–208). -/
def getConversationsMock (session : Option String) (st : MsgState) :
    Except String (List ConversationWithDetails) :=
  match getUserId session with
  | .error e => .error e
  | .ok userId =>
    let userConversations := st.conversations.filter (fun conv =>
      conv.buyer_id == userId || conv.seller_id == userId)
    let enhancedConversations := userConversations.map (fun conv =>
      let otherUserId := if conv.buyer_id == userId then conv.seller_id else conv.buyer_id
      let otherUser := mockUsers.find? (fun user => user.id == otherUserId)
      let unreadCount := (st.messages.filter (fun msg =>
        msg.conversation_id == conv.id && msg.receiver_id == userId && !msg.read)).length
      let conversationMessages := sortByDesc (fun m => m.created_at)
        (st.messages.filter (fun msg => msg.conversation_id == conv.id))
      let lastMessage := conversationMessages.head?.map (fun m => m.content)
      let listing : ListingInfo :=
        { id := conv.listing_id,
          title := "Book #" ++ ((jsSplit conv.listing_id '-').getD 1 "undefined"),
          image_url := some "https://source.unsplash.com/random/200x300/?book",
          price := 1999 }
      { conv with
        unreadCount := unreadCount,
        lastMessage := lastMessage,
        otherUser :=
          { id := (otherUser.map (fun u => u.id)).getD "",
            name := (otherUser.map (fun u => u.name)).getD "Unknown User",
            profileImage := otherUser.bind (fun u => u.profileImage) },
        listing := listing })
    .ok (sortByDesc (fun c => c.last_message_at) enhancedConversations)

/-- Fixture path of `getUnreadCount` (lines 756–773).  Note the
`if (!userId) return 0` guard sits after `getUserId()`, which throws for
an anonymous caller. -/
def getUnreadCountMock (session : Option String) (st : MsgState) : Except String Nat :=
  match getUserId session with
  | .error e => .error e
  | .ok userId =>
    if userId = "" then .ok 0
    else .ok (st.messages.filter (fun msg => msg.receiver_id == userId && !msg.read)).length

/-- Which backing path a call takes. -/
inductive ServePath where
  | remote
  | fixture
  deriving DecidableEq, Repr

/-- Routing of `getConversations` (line 149): fixture iff
`USE_MOCK_DATA || DETECTED_MISSING_TABLES`. -/
def getConversationsPath (detectedMissingTables : Bool) : ServePath :=
  if USE_MOCK_DATA || detectedMissingTables then .fixture else .remote

/-- Routing of `getMessages` (line 410). -/
def getMessagesPath (detectedMissingTables : Bool) : ServePath :=
  if USE_MOCK_DATA || detectedMissingTables then .fixture else .remote

/-- Routing of `getUnreadCount` (line 763). -/
def getUnreadCountPath (detectedMissingTables : Bool) : ServePath :=
  if USE_MOCK_DATA || detectedMissingTables then .fixture else .remote

/-- Routing of `sendMessage` (line 465): the guard tests `USE_MOCK_DATA`
only — the `DETECTED_MISSING_TABLES` flag is not consulted. -/
def sendMessagePath (detectedMissingTables : Bool) : ServePath :=
  if USE_MOCK_DATA then .fixture else .remote

/-- Routing of `markMessagesAsRead` (line 563): tests `USE_MOCK_DATA`
only. -/
def markMessagesAsReadPath (detectedMissingTables : Bool) : ServePath :=
  if USE_MOCK_DATA then .fixture else .remote

/-- Routing of `startConversation` (line 610): tests `USE_MOCK_DATA`
only. -/
def startConversationPath (detectedMissingTables : Bool) : ServePath :=
  if USE_MOCK_DATA then .fixture else .remote

/-- A fixture-path call, for reachability of fixture-store states. -/
inductive MsgOp where
  | send (session : Option String) (conversationId content now : String)
  | markRead (session : Option String) (conversationId : String)
  | start (session : Option String) (listingId sellerId initialMessage now : String)

/-- State effect of one fixture-path call (a rejected call leaves the
store untouched). -/
def applyMsgOp (st : MsgState) (op : MsgOp) : MsgState :=
  match op with
  | .send session cid content now =>
    match sendMessageMock session cid content now st with
    | .ok (_, st2) => st2
    | .error _ => st
  | .markRead session cid =>
    match markMessagesAsReadMock session cid st with
    | .ok st2 => st2
    | .error _ => st
  | .start session lid sid msg now =>
    match startConversationMock session lid sid msg now st with
    | .ok (_, st2) => st2
    | .error _ => st

/-- Fixture store after a sequence of calls from the seeded store. -/
def runMsgOps (ops : List MsgOp) : MsgState :=
  ops.foldl applyMsgOp seedMsgState

/-- A fixture-store state the process can actually be in. -/
def MsgReachable (st : MsgState) : Prop :=
  ∃ ops : List MsgOp, runMsgOps ops = st

/-- The id every seed or generated message at position `i` of the store
carries. -/
def msgIdAt (i : Nat) : String :=
  if i < 6 then String.mk (['m', 's', 'g', '-', '0', '0'] ++ natStrChars (i + 1))
  else mkMsgId (i + 1)

/-- The id every seed or generated conversation at position `i` of the
store carries. -/
def convIdAt (i : Nat) : String :=
  if i < 2 then String.mk (['c', 'o', 'n', 'v', '-', '0', '0'] ++ natStrChars (i + 1))
  else mkConvId (i + 1)

/-- Store invariant: sizes never shrink below the seed and every entity's
id is determined by its position. -/
def MsgInv (st : MsgState) : Prop :=
  6 ≤ st.messages.length ∧ 2 ≤ st.conversations.length ∧
  st.messages.map Message.id = (List.range st.messages.length).map msgIdAt ∧
  st.conversations.map Conversation.id = (List.range st.conversations.length).map convIdAt

end MessageService

/-! ## Saved-items service (src/services/SavedItemsService.ts)

`mockFavorites` / `mockWishlist` are JS `Record<string, string[]>` objects
that every access reads through `|| []` and writes by whole-key
assignment; they are modelled as total functions with default `[]`. -/

/-- The saved-items fixture store. -/
structure SavedState where
  favorites : String → List String
  wishlist : String → List String

namespace SavedItemsService

/-- `USE_MOCK_DATA` (src/services/SavedItemsService.ts line 7). -/
def USE_MOCK_DATA : Bool := false

/-- The empty initial store (`{}` / `{}`). -/
def seedSavedState : SavedState :=
  { favorites := fun _ => [], wishlist := fun _ => [] }

/-- Fixture path of `addSavedItem` (lines 38–63): push the book id unless
already present. -/
def addSavedItem (session : Option String) (bookId : String) (t : SavedItemType)
    (st : SavedState) : Except String SavedState :=
  match getUserId session with
  | .error e => .error e
  | .ok userId =>
    if userId = "" then .error "User must be logged in to save items"
    else
      match t with
      | .FAVORITE =>
        .ok { st with favorites := (Function.update st.favorites userId
          (if (st.favorites userId).contains bookId then st.favorites userId
           else st.favorites userId ++ [bookId])) }
      | .WISHLIST =>
        .ok { st with wishlist := (Function.update st.wishlist userId
          (if (st.wishlist userId).contains bookId then st.wishlist userId
           else st.wishlist userId ++ [bookId])) }

/-- Fixture path of `removeSavedItem` (lines 100–119): filter the book id
out of the key's list. -/
def removeSavedItem (session : Option String) (bookId : String) (t : SavedItemType)
    (st : SavedState) : Except String SavedState :=
  match getUserId session with
  | .error e => .error e
  | .ok userId =>
    if userId = "" then .error "User must be logged in to remove saved items"
    else
      match t with
      | .FAVORITE =>
        .ok { st with favorites := (Function.update st.favorites userId
          ((st.favorites userId).filter (fun id => id != bookId))) }
      | .WISHLIST =>
        .ok { st with wishlist := (Function.update st.wishlist userId
          ((st.wishlist userId).filter (fun id => id != bookId))) }

/-- Fixture path of `isSavedItem` (lines 152–171): `getUserId()` throws
for an anonymous caller before the `if (!userId) return false` guard can
run. -/
def isSavedItem (session : Option String) (bookId : String) (t : SavedItemType)
    (st : SavedState) : Except String Bool :=
  match getUserId session with
  | .error e => .error e
  | .ok userId =>
    if userId = "" then .ok false
    else
      match t with
      | .FAVORITE => .ok ((st.favorites userId).contains bookId)
      | .WISHLIST => .ok ((st.wishlist userId).contains bookId)

/-- Fixture path of `getSavedItems` (lines 224–248); `allBooks` is the
result of the `BookService.getListings()` call it performs. -/
def getSavedItems (session : Option String) (t : SavedItemType)
    (st : SavedState) (allBooks : List BookListing) : Except String (List BookListing) :=
  match getUserId session with
  | .error e => .error e
  | .ok userId =>
    if userId = "" then .ok []
    else
      let savedIds := match t with
        | .FAVORITE => st.favorites userId
        | .WISHLIST => st.wishlist userId
      .ok (allBooks.filter (fun book => savedIds.contains book.id))

/-- The saved-item membership relation (the state observed by
`isSavedItem`). -/
def savedMem (st : SavedState) (userId bookId : String) (t : SavedItemType) : Bool :=
  match t with
  | .FAVORITE => (st.favorites userId).contains bookId
  | .WISHLIST => (st.wishlist userId).contains bookId

end SavedItemsService

/-! ## User service (src/services/UserService.ts) -/

namespace UserService

/-- `USE_MOCK_DATA` (line 5). -/
def USE_MOCK_DATA : Bool := false

/-- Fixture path of `updateProfile` (lines 433–464): find the user in the
store by id, reject with `User not found` if absent, otherwise resolve
the spread `{ ...user, ...profileUpdate }` — provided fields replace,
absent fields keep the stored value.  The store itself is never written
(the source only builds the merged object). -/
def updateProfileMock (users : List MockUser) (userId : String)
    (profileUpdate : UserProfileUpdate) : Except String MockUser :=
  match users.find? (fun user => user.id == userId) with
  | none => .error "User not found"
  | some user =>
    .ok { user with
      name := profileUpdate.name.getD user.name,
      profileImage := match profileUpdate.profileImage with
        | some v => some v
        | none => user.profileImage,
      bio := match profileUpdate.bio with
        | some v => some v
        | none => user.bio,
      location := match profileUpdate.location with
        | some v => some v
        | none => user.location,
      phone := match profileUpdate.phone with
        | some v => some v
        | none => user.phone }

end UserService

/-! ## Listings service (src/services/BookService.ts)

`USE_MOCK_DATA` is the compile-time constant `false` and the module has
no missing-table fallback flag, so every call takes the remote path.  The
remote store is modelled through its contract: `table` is the row set of
`book_listings`, and a query returns the rows matching its filters in the
requested `created_at`-descending order. -/

namespace BookService

/-- `USE_MOCK_DATA` (line 5). -/
def USE_MOCK_DATA : Bool := false

/-- The remote `order('created_at', { ascending: false })` contract. -/
def supaOrderByCreatedAtDesc (rows : List BookListing) : List BookListing :=
  sortByDesc (fun l => l.created_at) rows

/-- The mock-branch search predicate (lines 93–100): case-insensitive
substring match on title, author or (truthy) description. -/
def searchPredMock (searchTerm : String) (listing : BookListing) : Bool :=
  jsIncludes (strLower listing.title) (strLower searchTerm) ||
  jsIncludes (strLower listing.author) (strLower searchTerm) ||
  (match listing.description with
   | some d => d != "" && jsIncludes (strLower d) (strLower searchTerm)
   | none => false)

/-- The remote `.or(title.ilike.%t%,author.ilike.%t%,description.ilike.%t%)`
predicate (line 110); `ilike` on a NULL column does not match. -/
def searchPredRemote (searchTerm : String) (listing : BookListing) : Bool :=
  jsIncludes (strLower listing.title) (strLower searchTerm) ||
  jsIncludes (strLower listing.author) (strLower searchTerm) ||
  (match listing.description with
   | some d => jsIncludes (strLower d) (strLower searchTerm)
   | none => false)

/-- `getListings` (lines 58–83). -/
def getListings (table : List BookListing) : List BookListing :=
  if USE_MOCK_DATA then mockListings
  else supaOrderByCreatedAtDesc table

/-- `searchListings` (lines 88–122). -/
def searchListings (searchTerm : String) (table : List BookListing) : List BookListing :=
  if USE_MOCK_DATA then mockListings.filter (searchPredMock searchTerm)
  else supaOrderByCreatedAtDesc (table.filter (searchPredRemote searchTerm))

/-- `getListingsByCategory` (lines 127–156). -/
def getListingsByCategory (category : String) (table : List BookListing) : List BookListing :=
  if USE_MOCK_DATA then mockListings.filter (fun listing => listing.category == some category)
  else supaOrderByCreatedAtDesc (table.filter (fun listing => listing.category == some category))

/-- `getListingsBySeller` (lines 305–332). -/
def getListingsBySeller (sellerId : String) (table : List BookListing) : List BookListing :=
  if USE_MOCK_DATA then getMockListingsBySeller sellerId
  else supaOrderByCreatedAtDesc (table.filter (fun listing => listing.seller_id == sellerId))

/-- The mock-branch filter pipeline of `getFilteredListings`
(lines 342–384): six successive conditional `filter` passes.  In the
category pass `listing.category && ...` requires a truthy (present,
non-empty) category. -/
def applyMockFilters (filters : BookFilterOptions) (rows : List BookListing) :
    List BookListing :=
  let r1 := match filters.categories with
    | some cats =>
      if cats.length > 0 then
        rows.filter (fun listing =>
          match listing.category with
          | some c => c != "" && cats.contains c
          | none => false)
      else rows
    | none => rows
  let r2 := match filters.conditions with
    | some conds =>
      if conds.length > 0 then
        r1.filter (fun listing => conds.contains listing.condition)
      else r1
    | none => r1
  let r3 := match filters.minPrice with
    | some m => r2.filter (fun listing => m ≤ listing.price)
    | none => r2
  let r4 := match filters.maxPrice with
    | some m => r3.filter (fun listing => listing.price ≤ m)
    | none => r3
  let r5 := match filters.isNegotiable with
    | some v => r4.filter (fun listing => listing.is_negotiable == some v)
    | none => r4
  let r6 := match filters.exchangeOption with
    | some v => r5.filter (fun listing => listing.exchange_option == some v)
    | none => r5
  r6

/-- The remote filter conjunction of `getFilteredListings`
(lines 391–423): `.in` / `.gte` / `.lte` / `.eq` clauses added for the
provided (and, for the sets, non-empty) filters; a NULL column matches
neither `.in` nor `.eq`. -/
def remoteFilterPred (filters : BookFilterOptions) (listing : BookListing) : Bool :=
  (match filters.categories with
   | some cats =>
     if cats.length > 0 then
       match listing.category with
       | some c => cats.contains c
       | none => false
     else true
   | none => true) &&
  (match filters.conditions with
   | some conds =>
     if conds.length > 0 then conds.contains listing.condition else true
   | none => true) &&
  (match filters.minPrice with
   | some m => m ≤ listing.price
   | none => true) &&
  (match filters.maxPrice with
   | some m => listing.price ≤ m
   | none => true) &&
  (match filters.isNegotiable with
   | some v => listing.is_negotiable == some v
   | none => true) &&
  (match filters.exchangeOption with
   | some v => listing.exchange_option == some v
   | none => true)

/-- `getFilteredListings` (lines 337–436). -/
def getFilteredListings (filters : BookFilterOptions) (table : List BookListing) :
    List BookListing :=
  if USE_MOCK_DATA then applyMockFilters filters mockListings
  else supaOrderByCreatedAtDesc (table.filter (remoteFilterPred filters))

/-- The filter semantics as the specification words them: the conjunction
of the provided predicates — category in the given set, condition in the
given set, price within the given bounds, `is_negotiable` /
`exchange_option` equal to the given value — where an omitted predicate
(for the set filters: an absent or empty set) imposes no constraint. -/
def specFilterPred (filters : BookFilterOptions) (listing : BookListing) : Bool :=
  (match filters.categories with
   | some cats =>
     if cats.length > 0 then
       match listing.category with
       | some c => cats.contains c
       | none => false
     else true
   | none => true) &&
  (match filters.conditions with
   | some conds =>
     if conds.length > 0 then conds.contains listing.condition else true
   | none => true) &&
  (match filters.minPrice with
   | some m => m ≤ listing.price
   | none => true) &&
  (match filters.maxPrice with
   | some m => listing.price ≤ m
   | none => true) &&
  (match filters.isNegotiable with
   | some v => listing.is_negotiable == some v
   | none => true) &&
  (match filters.exchangeOption with
   | some v => listing.exchange_option == some v
   | none => true)

/-- The filter object with every predicate omitted. -/
def noFilters : BookFilterOptions :=
  { categories := none, conditions := none, minPrice := none, maxPrice := none,
    isNegotiable := none, exchangeOption := none }

end BookService

/-- The value a little-endian digit list denotes. -/
def natDigitsVal : List Nat → Nat
  | [] => 0
  | d :: ds => d + 10 * natDigitsVal ds

/-! # Theorems -/

/-! ## Decimal rendering: basic lemmas -/

/-- The fuel argument is irrelevant as long as it is at least the number. -/
theorem natDigitsLEFuel_congr :
    ∀ n f1 f2, n ≤ f1 → n ≤ f2 → natDigitsLEFuel f1 n = natDigitsLEFuel f2 n := by
  intro n
  induction n using Nat.strong_induction_on with
  | _ n ih =>
    intro f1 f2 h1 h2
    match n, f1, f2 with
    | 0, 0, 0 => rfl
    | 0, 0, _ + 1 => rfl
    | 0, _ + 1, 0 => rfl
    | 0, _ + 1, _ + 1 => rfl
    | m + 1, g1 + 1, g2 + 1 =>
      simp only [natDigitsLEFuel]
      have hdiv : (m + 1) / 10 < m + 1 := Nat.div_lt_self (Nat.succ_pos m) (by decide)
      have hg1 : (m + 1) / 10 ≤ g1 := by omega
      have hg2 : (m + 1) / 10 ≤ g2 := by omega
      rw [ih ((m + 1) / 10) hdiv g1 g2 hg1 hg2]

/-- Unfolding equation of `natDigitsLE` for positive numbers. -/
theorem natDigitsLE_succ (n : Nat) :
    natDigitsLE (n + 1) = ((n + 1) % 10) :: natDigitsLE ((n + 1) / 10) := by
  show natDigitsLEFuel (n + 1) (n + 1) = ((n + 1) % 10) :: natDigitsLEFuel ((n + 1) / 10) ((n + 1) / 10)
  simp only [natDigitsLEFuel]
  have hdiv : (n + 1) / 10 < n + 1 := Nat.div_lt_self (Nat.succ_pos n) (by decide)
  rw [natDigitsLEFuel_congr ((n + 1) / 10) n ((n + 1) / 10) (by omega) (le_refl _)]

/-- Unfolding of `natDigitsLE` phrased with a positivity hypothesis. -/
theorem natDigitsLE_pos (n : Nat) (h : 1 ≤ n) :
    natDigitsLE n = (n % 10) :: natDigitsLE (n / 10) := by
  match n, h with
  | m + 1, _ => exact natDigitsLE_succ m

/-- Every produced digit is below 10. -/
theorem natDigitsLE_lt10 : ∀ n, ∀ d ∈ natDigitsLE n, d < 10 := by
  intro n
  induction n using Nat.strong_induction_on with
  | _ n ih =>
    match n with
    | 0 => intro d hd; simp [natDigitsLE, natDigitsLEFuel] at hd
    | m + 1 =>
      intro d hd
      rw [natDigitsLE_succ] at hd
      rcases List.mem_cons.mp hd with h | h
      · subst h; exact Nat.mod_lt _ (by decide)
      · exact ih ((m + 1) / 10) (Nat.div_lt_self (Nat.succ_pos m) (by decide)) d h

/-- `natDigitsLE` is a right inverse of evaluation: the digit list of `n`
denotes `n`. -/
theorem natDigitsVal_natDigitsLE : ∀ n, natDigitsVal (natDigitsLE n) = n := by
  intro n
  induction n using Nat.strong_induction_on with
  | _ n ih =>
    match n with
    | 0 => rfl
    | m + 1 =>
      rw [natDigitsLE_succ]
      simp only [natDigitsVal]
      rw [ih ((m + 1) / 10) (Nat.div_lt_self (Nat.succ_pos m) (by decide))]
      omega

/-- Digit lists are therefore unique. -/
theorem natDigitsLE_inj {a b : Nat} (h : natDigitsLE a = natDigitsLE b) : a = b := by
  have := natDigitsVal_natDigitsLE a
  rw [h, natDigitsVal_natDigitsLE b] at this
  omega

/-- A positive number has a nonzero, sub-10 most significant digit. -/
theorem natDigitsLE_reverse_msd :
    ∀ n, 1 ≤ n → ∃ d ds, (natDigitsLE n).reverse = d :: ds ∧ d ≠ 0 ∧ d < 10 := by
  intro n
  induction n using Nat.strong_induction_on with
  | _ n ih =>
    intro hn
    rcases Nat.lt_or_ge n 10 with hsmall | hbig
    · have h10 : n / 10 = 0 := Nat.div_eq_of_lt hsmall
      have : natDigitsLE n = [n % 10] := by
        rw [natDigitsLE_pos n hn, h10]; rfl
      refine ⟨n % 10, [], by rw [this]; rfl, ?_, Nat.mod_lt _ (by decide)⟩
      have : n % 10 = n := Nat.mod_eq_of_lt hsmall
      omega
    · have hq : 1 ≤ n / 10 := Nat.le_div_iff_mul_le (by decide) |>.mpr (by omega)
      obtain ⟨d, ds, hds, hd0, hd10⟩ :=
        ih (n / 10) (Nat.div_lt_self (by omega) (by decide)) hq
      refine ⟨d, ds ++ [n % 10], ?_, hd0, hd10⟩
      rw [natDigitsLE_pos n hn]
      simp [hds]

/-- Lower length bound: `10^k ≤ n` forces at least `k + 1` digits. -/
theorem natDigitsLE_len_ge : ∀ k n, 10 ^ k ≤ n → k + 1 ≤ (natDigitsLE n).length := by
  intro k
  induction k with
  | zero =>
    intro n hn
    rw [natDigitsLE_pos n (by simpa using hn)]
    simp
  | succ k ih =>
    intro n hn
    have hn1 : 1 ≤ n := le_trans (Nat.one_le_pow _ _ (by decide)) hn
    rw [natDigitsLE_pos n hn1]
    have hq : 10 ^ k ≤ n / 10 := by
      rw [Nat.le_div_iff_mul_le (by decide)]
      calc 10 ^ k * 10 = 10 ^ (k + 1) := by ring
        _ ≤ n := hn
    simpa using ih (n / 10) hq

/-- Upper length bound: `n < 10^k` allows at most `k` digits. -/
theorem natDigitsLE_len_le : ∀ k n, n < 10 ^ k → (natDigitsLE n).length ≤ k := by
  intro k
  induction k with
  | zero =>
    intro n hn
    have : n = 0 := by simpa using hn
    subst this
    simp [natDigitsLE, natDigitsLEFuel]
  | succ k ih =>
    intro n hn
    match n with
    | 0 => simp [natDigitsLE, natDigitsLEFuel]
    | m + 1 =>
      rw [natDigitsLE_succ]
      have hq : (m + 1) / 10 < 10 ^ k := by
        rw [Nat.div_lt_iff_lt_mul (by decide)]
        calc m + 1 < 10 ^ (k + 1) := hn
          _ = 10 ^ k * 10 := by ring
      simpa using ih ((m + 1) / 10) hq

/-! ## The lexicographic timestamp order is total and transitive -/

/-- Totality of `lexLe`. -/
theorem lexLe_total : ∀ a b : List Char, lexLe a b = true ∨ lexLe b a = true := by
  intro a
  induction a with
  | nil => intro b; left; rfl
  | cons x xs ih =>
    intro b
    cases b with
    | nil => right; rfl
    | cons y ys =>
      simp only [lexLe]
      rcases Nat.lt_trichotomy x.toNat y.toNat with h | h | h
      · left; simp [h]
      · have h1 : ¬ x.toNat < y.toNat := by omega
        have h2 : ¬ y.toNat < x.toNat := by omega
        simpa [h1, h2] using ih ys
      · right; simp [h]

/-- Transitivity of `lexLe`. -/
theorem lexLe_trans :
    ∀ a b c : List Char, lexLe a b = true → lexLe b c = true → lexLe a c = true := by
  intro a
  induction a with
  | nil => intro b c _ _; rfl
  | cons x xs ih =>
    intro b c hab hbc
    cases b with
    | nil => simp [lexLe] at hab
    | cons y ys =>
      cases c with
      | nil => simp [lexLe] at hbc
      | cons z zs =>
        simp only [lexLe] at hab hbc ⊢
        rcases Nat.lt_trichotomy x.toNat y.toNat with hxy | hxy | hxy <;>
          rcases Nat.lt_trichotomy y.toNat z.toNat with hyz | hyz | hyz
        all_goals first
        | (have hout : x.toNat < z.toNat := by omega
           simp [hout])
        | (exfalso
           first
           | (have h1 : ¬ x.toNat < y.toNat := by omega
              have h2 : y.toNat < x.toNat := by omega
              simp [h1, h2] at hab)
           | (have h1 : ¬ y.toNat < z.toNat := by omega
              have h2 : z.toNat < y.toNat := by omega
              simp [h1, h2] at hbc))
        | (have h1 : ¬ x.toNat < y.toNat := by omega
           have h2 : ¬ y.toNat < x.toNat := by omega
           have h3 : ¬ y.toNat < z.toNat := by omega
           have h4 : ¬ z.toNat < y.toNat := by omega
           have h5 : ¬ x.toNat < z.toNat := by omega
           have h6 : ¬ z.toNat < x.toNat := by omega
           rw [if_neg h1, if_neg h2] at hab
           rw [if_neg h3, if_neg h4] at hbc
           rw [if_neg h5, if_neg h6]
           exact ih ys zs hab hbc)

/-- Totality of `strLe`. -/
theorem strLe_total (a b : String) : strLe a b = true ∨ strLe b a = true :=
  lexLe_total a.data b.data

/-- Transitivity of `strLe`. -/
theorem strLe_trans {a b c : String} (h1 : strLe a b = true) (h2 : strLe b c = true) :
    strLe a c = true :=
  lexLe_trans a.data b.data c.data h1 h2

/-! ## Sorting lemmas -/

/-- Membership through one insertion step. -/
theorem mem_insertByDesc {key : α → String} {x y : α} :
    ∀ l : List α, y ∈ insertByDesc key x l ↔ y = x ∨ y ∈ l := by
  intro l
  induction l with
  | nil => simp [insertByDesc]
  | cons z zs ih =>
    simp only [insertByDesc]
    by_cases h : strLe (key z) (key x) = true
    · simp [h, List.mem_cons]
    · simp only [if_neg h, List.mem_cons, ih]
      tauto

/-- One insertion step is a permutation of consing. -/
theorem insertByDesc_perm {key : α → String} (x : α) :
    ∀ l : List α, List.Perm (insertByDesc key x l) (x :: l) := by
  intro l
  induction l with
  | nil => simp [insertByDesc]
  | cons z zs ih =>
    simp only [insertByDesc]
    by_cases h : strLe (key z) (key x) = true
    · simp [h]
    · rw [if_neg h]
      exact (List.Perm.cons z ih).trans (List.Perm.swap x z zs)

/-- The sort is a permutation of its input. -/
theorem sortByDesc_perm {key : α → String} :
    ∀ l : List α, List.Perm (sortByDesc key l) l := by
  intro l
  induction l with
  | nil => exact List.Perm.refl _
  | cons x xs ih =>
    simp only [sortByDesc]
    exact (insertByDesc_perm x (sortByDesc key xs)).trans (List.Perm.cons x ih)

/-- Membership in the sorted list. -/
theorem mem_sortByDesc {key : α → String} {l : List α} {x : α} :
    x ∈ sortByDesc key l ↔ x ∈ l :=
  (sortByDesc_perm l).mem_iff

/-- One insertion step preserves sortedness. -/
theorem insertByDesc_sorted {key : α → String} {x : α} :
    ∀ {l : List α}, SortedByDesc key l → SortedByDesc key (insertByDesc key x l) := by
  intro l
  induction l with
  | nil => intro _; simp [insertByDesc, SortedByDesc]
  | cons y ys ih =>
    intro hs
    have hy := (List.pairwise_cons.mp hs).1
    have hys := (List.pairwise_cons.mp hs).2
    simp only [insertByDesc]
    by_cases h : strLe (key y) (key x) = true
    · rw [if_pos h]
      refine List.pairwise_cons.mpr ⟨?_, hs⟩
      intro z hz
      rcases List.mem_cons.mp hz with rfl | hz
      · exact h
      · exact strLe_trans (hy z hz) h
    · rw [if_neg h]
      refine List.pairwise_cons.mpr ⟨?_, ih hys⟩
      intro z hz
      rcases (mem_insertByDesc _).mp hz with rfl | hz
      · rcases strLe_total (key y) (key z) with h1 | h1
        · exact absurd h1 h
        · exact h1
      · exact hy z hz

/-- The sort really sorts. -/
theorem sortByDesc_sorted (key : α → String) :
    ∀ l : List α, SortedByDesc key (sortByDesc key l) := by
  intro l
  induction l with
  | nil => simp [sortByDesc, SortedByDesc]
  | cons x xs ih =>
    simp only [sortByDesc]
    exact insertByDesc_sorted ih

/-! ## listModify / jsFindIdx lemmas -/

/-- Modification keeps the length. -/
theorem listModify_length (f : α → α) :
    ∀ (l : List α) (i : Nat), (listModify l i f).length = l.length := by
  intro l
  induction l with
  | nil => intro i; rfl
  | cons a as ih =>
    intro i
    cases i with
    | zero => rfl
    | succ j => simpa [listModify] using ih j

/-- Modification by an observation-preserving function is invisible to
`map`. -/
theorem listModify_map (f : α → α) (g : α → β) (hg : ∀ x, g (f x) = g x) :
    ∀ (l : List α) (i : Nat), (listModify l i f).map g = l.map g := by
  intro l
  induction l with
  | nil => intro i; rfl
  | cons a as ih =>
    intro i
    cases i with
    | zero => simp [listModify, hg]
    | succ j => simp [listModify, ih j]

/-- `jsFindIdx` misses exactly when `find?` does. -/
theorem jsFindIdx_eq_none_iff (p : α → Bool) :
    ∀ l : List α, jsFindIdx p l = none ↔ l.find? p = none := by
  intro l
  induction l with
  | nil => simp [jsFindIdx]
  | cons a as ih =>
    by_cases h : p a
    · simp [jsFindIdx, List.find?, h]
    · rw [show jsFindIdx p (a :: as) = (jsFindIdx p as).map (· + 1) by
        simp [jsFindIdx, h]]
      rw [show List.find? p (a :: as) = List.find? p as by simp [List.find?, h]]
      constructor
      · intro hm
        apply ih.mp
        cases hj : jsFindIdx p as with
        | none => rfl
        | some v => rw [hj] at hm; simp at hm
      · intro hf
        rw [ih.mpr hf]
        rfl

/-- Appending one matching element to a list with no match puts the match
at the old length. -/
theorem jsFindIdx_append_singleton (p : α → Bool) (x : α)
    (hx : p x = true) :
    ∀ l : List α, (∀ y ∈ l, p y = false) → jsFindIdx p (l ++ [x]) = some l.length := by
  intro l
  induction l with
  | nil => simp [jsFindIdx, hx]
  | cons a as ih =>
    intro hl
    have ha : p a = false := hl a (by simp)
    simp only [List.cons_append, jsFindIdx, ha, Bool.false_eq_true, if_false,
      List.append_eq]
    rw [ih (fun y hy => hl y (by simp [hy]))]
    simp

/-- Modifying at the position just past a list edits the appended
element. -/
theorem listModify_append_at_length (f : α → α) (x : α) :
    ∀ l : List α, listModify (l ++ [x]) l.length f = l ++ [f x] := by
  intro l
  induction l with
  | nil => rfl
  | cons a as ih => simp [listModify, ih]

/-! ## Fixture identifier injectivity -/

/-- Two zero-padded lists with nonzero heads agree only when the padding
and the payload agree. -/
theorem replicate_pad_inj :
    ∀ (i j : Nat) (c1 c2 : Char) (cs1 cs2 : List Char), c1 ≠ '0' → c2 ≠ '0' →
      List.replicate i '0' ++ c1 :: cs1 = List.replicate j '0' ++ c2 :: cs2 →
      i = j ∧ c1 = c2 ∧ cs1 = cs2 := by
  intro i
  induction i with
  | zero =>
    intro j c1 c2 cs1 cs2 h1 h2 heq
    cases j with
    | zero =>
      simp only [List.replicate, List.nil_append, List.cons.injEq] at heq
      exact ⟨rfl, heq.1, heq.2⟩
    | succ k =>
      exfalso
      simp only [List.replicate, List.nil_append, List.cons_append, List.cons.injEq] at heq
      exact h1 heq.1
  | succ m ih =>
    intro j c1 c2 cs1 cs2 h1 h2 heq
    cases j with
    | zero =>
      exfalso
      simp only [List.replicate, List.nil_append, List.cons_append, List.cons.injEq] at heq
      exact h2 heq.1.symm
    | succ k =>
      simp only [List.replicate, List.cons_append, List.cons.injEq] at heq
      obtain ⟨hik, hc, hcs⟩ := ih k c1 c2 cs1 cs2 h1 h2 heq.2
      exact ⟨by omega, hc, hcs⟩

/-- The digit-character map is injective on digits. -/
theorem digitChar_inj : ∀ d1 < 10, ∀ d2 < 10, digitChar d1 = digitChar d2 → d1 = d2 := by
  decide

/-- A nonzero digit never renders as the padding character. -/
theorem digitChar_ne_zero : ∀ d < 10, d ≠ 0 → digitChar d ≠ '0' := by
  decide

/-- `map digitChar` is injective on digit lists. -/
theorem map_digitChar_inj :
    ∀ la lb : List Nat, (∀ d ∈ la, d < 10) → (∀ d ∈ lb, d < 10) →
      la.map digitChar = lb.map digitChar → la = lb := by
  intro la
  induction la with
  | nil =>
    intro lb _ _ h
    cases lb with
    | nil => rfl
    | cons y ys => simp at h
  | cons x xs ih =>
    intro lb hla hlb h
    cases lb with
    | nil => simp at h
    | cons y ys =>
      simp only [List.map_cons, List.cons.injEq] at h
      have hx := hla x (by simp)
      have hy := hlb y (by simp)
      rw [digitChar_inj x hx y hy h.1,
        ih ys (fun d hd => hla d (by simp [hd])) (fun d hd => hlb d (by simp [hd])) h.2]

/-- For a positive number the rendered digits start with a nonzero
digit character. -/
theorem natStrChars_pos (n : Nat) (hn : 1 ≤ n) :
    ∃ c cs, natStrChars n = c :: cs ∧ c ≠ '0' := by
  obtain ⟨d, ds, hds, hd0, hd10⟩ := natDigitsLE_reverse_msd n hn
  refine ⟨digitChar d, ds.map digitChar, ?_, digitChar_ne_zero d hd10 hd0⟩
  simp [natStrChars, Nat.pos_iff_ne_zero.mp hn, hds]

/-- The rendered digits of a positive number are injective. -/
theorem natStrChars_inj {a b : Nat} (ha : 1 ≤ a) (hb : 1 ≤ b)
    (h : natStrChars a = natStrChars b) : a = b := by
  have ha0 : a ≠ 0 := by omega
  have hb0 : b ≠ 0 := by omega
  simp only [natStrChars, if_neg ha0, if_neg hb0] at h
  have hrev : (natDigitsLE a).reverse = (natDigitsLE b).reverse :=
    map_digitChar_inj _ _
      (fun d hd => natDigitsLE_lt10 a d (List.mem_reverse.mp hd))
      (fun d hd => natDigitsLE_lt10 b d (List.mem_reverse.mp hd)) h
  exact natDigitsLE_inj (List.reverse_injective hrev)

/-- Positive numbers have at least one digit. -/
theorem natStrChars_length_pos (n : Nat) (hn : 1 ≤ n) :
    (natStrChars n).length = (natDigitsLE n).length := by
  simp [natStrChars, Nat.pos_iff_ne_zero.mp hn]

/-- Generated message ids are injective. -/
theorem mkMsgId_inj {a b : Nat} (ha : 1 ≤ a) (hb : 1 ≤ b) (h : mkMsgId a = mkMsgId b) :
    a = b := by
  have hd : padStartChars (['m', 's', 'g', '-'] ++ natStrChars a) 7 '0'
      = padStartChars (['m', 's', 'g', '-'] ++ natStrChars b) 7 '0' := by
    have := congrArg String.data h
    simpa [mkMsgId] using this
  simp only [padStartChars, List.cons_append, List.nil_append] at hd
  have h2 := replicate_pad_inj _ _ 'm' 'm'
    ('s' :: 'g' :: '-' :: natStrChars a) ('s' :: 'g' :: '-' :: natStrChars b)
    (by decide) (by decide) hd
  have h3 : natStrChars a = natStrChars b := by
    have := h2.2.2
    simpa using this
  exact natStrChars_inj ha hb h3

/-- Generated conversation ids are injective. -/
theorem mkConvId_inj {a b : Nat} (ha : 1 ≤ a) (hb : 1 ≤ b) (h : mkConvId a = mkConvId b) :
    a = b := by
  have hd : padStartChars (['c', 'o', 'n', 'v', '-'] ++ natStrChars a) 7 '0'
      = padStartChars (['c', 'o', 'n', 'v', '-'] ++ natStrChars b) 7 '0' := by
    have := congrArg String.data h
    simpa [mkConvId] using this
  simp only [padStartChars, List.cons_append, List.nil_append] at hd
  have h2 := replicate_pad_inj _ _ 'c' 'c'
    ('o' :: 'n' :: 'v' :: '-' :: natStrChars a) ('o' :: 'n' :: 'v' :: '-' :: natStrChars b)
    (by decide) (by decide) hd
  have h3 : natStrChars a = natStrChars b := by
    have := h2.2.2
    simpa using this
  exact natStrChars_inj ha hb h3

/-- Single-digit renderings of the seed indices. -/
theorem natStrChars_small : ∀ i < 6, natStrChars (i + 1) = [digitChar (i + 1)] := by
  decide

/-- A generated message id never collides with a seed message id. -/
theorem mkMsgId_ne_seed : ∀ n, 1 ≤ n → ∀ i < 6, mkMsgId n ≠ MessageService.msgIdAt i := by
  intro n hn i hi heq
  obtain ⟨c, cs, hcs, hc0⟩ := natStrChars_pos n hn
  have hseed := natStrChars_small i hi
  rw [MessageService.msgIdAt, if_pos hi] at heq
  have hd : padStartChars (['m', 's', 'g', '-'] ++ natStrChars n) 7 '0'
      = ['m', 's', 'g', '-', '0', '0'] ++ natStrChars (i + 1) := by
    have := congrArg String.data heq
    simpa [mkMsgId] using this
  rw [hcs, hseed] at hd
  simp only [padStartChars, List.cons_append, List.nil_append, List.length_cons] at hd
  rcases Nat.lt_or_ge cs.length 2 with hlen | hlen
  · -- at most two digits: the padded id starts with the pad character
    rw [show (7 - (cs.length + 1 + 1 + 1 + 1 + 1)) = (1 - cs.length) + 1 by omega,
      List.replicate_succ] at hd
    simp only [List.cons_append, List.cons.injEq] at hd
    exact absurd hd.1 (by decide)
  rcases Nat.lt_or_ge cs.length 3 with hlen3 | hlen3
  · -- exactly three digits: position 5 disagrees ('0' vs nonzero)
    rw [show (7 - (cs.length + 1 + 1 + 1 + 1 + 1)) = 0 by omega,
      List.replicate_zero, List.nil_append] at hd
    simp only [List.cons.injEq] at hd
    exact hc0 hd.2.2.2.2.1
  · -- four or more digits: lengths differ
    have := congrArg List.length hd
    simp at this
    omega

/-- A generated conversation id never collides with a seed conversation
id. -/
theorem mkConvId_ne_seed : ∀ n, 1 ≤ n → ∀ i < 2, mkConvId n ≠ MessageService.convIdAt i := by
  intro n hn i hi heq
  obtain ⟨c, cs, hcs, hc0⟩ := natStrChars_pos n hn
  have hseed := natStrChars_small i (by omega)
  rw [MessageService.convIdAt, if_pos hi] at heq
  have hd : padStartChars (['c', 'o', 'n', 'v', '-'] ++ natStrChars n) 7 '0'
      = ['c', 'o', 'n', 'v', '-', '0', '0'] ++ natStrChars (i + 1) := by
    have := congrArg String.data heq
    simpa [mkConvId] using this
  rw [hcs, hseed] at hd
  simp only [padStartChars, List.cons_append, List.nil_append, List.length_cons] at hd
  rcases Nat.lt_or_ge cs.length 1 with hlen | hlen
  · -- one digit: the padded id starts with the pad character
    rw [show (7 - (cs.length + 1 + 1 + 1 + 1 + 1 + 1)) = 1 by omega, List.replicate_succ,
      List.replicate_zero] at hd
    simp only [List.cons_append, List.nil_append, List.cons.injEq] at hd
    exact absurd hd.1 (by decide)
  rcases Nat.lt_or_ge cs.length 2 with hlen2 | hlen2
  · -- two digits: length 7 vs length 8
    have := congrArg List.length hd
    simp at this
    omega
  rcases Nat.lt_or_ge cs.length 3 with hlen3 | hlen3
  · -- three digits: position 5 disagrees ('0' vs nonzero)
    rw [show (7 - (cs.length + 1 + 1 + 1 + 1 + 1 + 1)) = 0 by omega,
      List.replicate_zero, List.nil_append] at hd
    simp only [List.cons.injEq] at hd
    exact hc0 hd.2.2.2.2.2.1
  · -- four or more digits: lengths differ
    have := congrArg List.length hd
    simp at this
    omega

/-- Seed message ids are pairwise distinct. -/
theorem msgIdAt_small_inj :
    ∀ i < 6, ∀ j < 6, MessageService.msgIdAt i = MessageService.msgIdAt j → i = j := by
  decide

/-- Seed conversation ids are pairwise distinct. -/
theorem convIdAt_small_inj :
    ∀ i < 2, ∀ j < 2, MessageService.convIdAt i = MessageService.convIdAt j → i = j := by
  decide

/-- The position-to-id map for messages is injective. -/
theorem msgIdAt_inj : ∀ i j, MessageService.msgIdAt i = MessageService.msgIdAt j → i = j := by
  intro i j h
  rcases Nat.lt_or_ge i 6 with hi | hi <;> rcases Nat.lt_or_ge j 6 with hj | hj
  · exact msgIdAt_small_inj i hi j hj h
  · exfalso
    rw [show MessageService.msgIdAt j = mkMsgId (j + 1) from by
      rw [MessageService.msgIdAt]; rw [if_neg (by omega)]] at h
    exact mkMsgId_ne_seed (j + 1) (by omega) i hi h.symm
  · exfalso
    rw [show MessageService.msgIdAt i = mkMsgId (i + 1) from by
      rw [MessageService.msgIdAt]; rw [if_neg (by omega)]] at h
    exact mkMsgId_ne_seed (i + 1) (by omega) j hj h
  · rw [show MessageService.msgIdAt i = mkMsgId (i + 1) from by
      rw [MessageService.msgIdAt]; rw [if_neg (by omega)],
      show MessageService.msgIdAt j = mkMsgId (j + 1) from by
      rw [MessageService.msgIdAt]; rw [if_neg (by omega)]] at h
    have := mkMsgId_inj (a := i + 1) (b := j + 1) (by omega) (by omega) h
    omega

/-- The position-to-id map for conversations is injective. -/
theorem convIdAt_inj :
    ∀ i j, MessageService.convIdAt i = MessageService.convIdAt j → i = j := by
  intro i j h
  rcases Nat.lt_or_ge i 2 with hi | hi <;> rcases Nat.lt_or_ge j 2 with hj | hj
  · exact convIdAt_small_inj i hi j hj h
  · exfalso
    rw [show MessageService.convIdAt j = mkConvId (j + 1) from by
      rw [MessageService.convIdAt]; rw [if_neg (by omega)]] at h
    exact mkConvId_ne_seed (j + 1) (by omega) i hi h.symm
  · exfalso
    rw [show MessageService.convIdAt i = mkConvId (i + 1) from by
      rw [MessageService.convIdAt]; rw [if_neg (by omega)]] at h
    exact mkConvId_ne_seed (i + 1) (by omega) j hj h
  · rw [show MessageService.convIdAt i = mkConvId (i + 1) from by
      rw [MessageService.convIdAt]; rw [if_neg (by omega)],
      show MessageService.convIdAt j = mkConvId (j + 1) from by
      rw [MessageService.convIdAt]; rw [if_neg (by omega)]] at h
    have := mkConvId_inj (a := i + 1) (b := j + 1) (by omega) (by omega) h
    omega

/-! ## setConvLastMessageAt lemmas -/

/-- Bumping `last_message_at` never changes any conversation id. -/
theorem setConvLastMessageAt_map_id (convs : List Conversation) (cid t : String) :
    (MessageService.setConvLastMessageAt convs cid t).map Conversation.id =
      convs.map Conversation.id := by
  rw [MessageService.setConvLastMessageAt]
  cases h : jsFindIdx (fun conv => conv.id == cid) convs with
  | none => rfl
  | some i =>
    exact listModify_map (fun conv => { conv with last_message_at := t })
      Conversation.id (fun x => rfl) convs i

/-- Bumping `last_message_at` keeps the number of conversations. -/
theorem setConvLastMessageAt_length (convs : List Conversation) (cid t : String) :
    (MessageService.setConvLastMessageAt convs cid t).length = convs.length := by
  rw [MessageService.setConvLastMessageAt]
  cases h : jsFindIdx (fun conv => conv.id == cid) convs with
  | none => rfl
  | some i => exact listModify_length (fun conv => { conv with last_message_at := t }) convs i

/-- If the target conversation is the appended one and no earlier
conversation carries its id, the bump edits exactly the appended
element. -/
theorem setConvLastMessageAt_append_fresh (l : List Conversation) (x : Conversation)
    (t : String) (hfresh : ∀ cv ∈ l, (cv.id == x.id) = false) :
    MessageService.setConvLastMessageAt (l ++ [x]) x.id t =
      l ++ [{ x with last_message_at := t }] := by
  rw [MessageService.setConvLastMessageAt]
  rw [jsFindIdx_append_singleton _ x (by simp) l hfresh]
  exact listModify_append_at_length _ x l

/-- The first conversation matching an id keeps matching after the bump,
now carrying the new `last_message_at`. -/
theorem setConvLastMessageAt_find? {cid t : String} :
    ∀ {l : List Conversation} {conv : Conversation},
      l.find? (fun c => c.id == cid) = some conv →
      (MessageService.setConvLastMessageAt l cid t).find? (fun c => c.id == cid) =
        some { conv with last_message_at := t } := by
  intro l
  induction l with
  | nil => intro conv h; simp at h
  | cons a as ih =>
    intro conv h
    by_cases ha : (a.id == cid) = true
    · have hcons : List.find? (fun c => c.id == cid) (a :: as) = some a := by
        simp [List.find?, ha]
      have hconv : conv = a := by
        rw [hcons] at h
        exact (Option.some.inj h).symm
      subst hconv
      rw [MessageService.setConvLastMessageAt]
      rw [show jsFindIdx (fun c => c.id == cid) (conv :: as) = some 0 by
        simp [jsFindIdx, ha]]
      show List.find? (fun c => c.id == cid)
        ({ conv with last_message_at := t } :: as) = _
      simp [List.find?, ha]
    · have hcons : List.find? (fun c => c.id == cid) (a :: as) =
          List.find? (fun c => c.id == cid) as := by
        simp [List.find?, ha]
      rw [hcons] at h
      have hrec := ih h
      rw [MessageService.setConvLastMessageAt] at hrec ⊢
      rw [show jsFindIdx (fun c => c.id == cid) (a :: as) =
        (jsFindIdx (fun c => c.id == cid) as).map (· + 1) by simp [jsFindIdx, ha]]
      cases hj : jsFindIdx (fun c => c.id == cid) as with
      | none =>
        exfalso
        have := (jsFindIdx_eq_none_iff _ as).mp hj
        rw [this] at h
        simp at h
      | some i =>
        rw [hj] at hrec
        show List.find? (fun c => c.id == cid)
          (a :: listModify as i (fun c => { c with last_message_at := t })) = _
        rw [show List.find? (fun c => c.id == cid)
            (a :: listModify as i (fun c => { c with last_message_at := t })) =
            List.find? (fun c => c.id == cid)
              (listModify as i (fun c => { c with last_message_at := t })) by
          simp [List.find?, ha]]
        exact hrec

/-! ## Messaging store invariant -/

/-- Shape of the state produced by a successful fixture `sendMessage`. -/
theorem sendMessageMock_ok_state {session : Option String} {cid content now : String}
    {st : MsgState} {m : Message} {st2 : MsgState}
    (h : MessageService.sendMessageMock session cid content now st = .ok (m, st2)) :
    st2.messages = st.messages ++ [m] ∧ m.id = mkMsgId (st.messages.length + 1) ∧
    st2.conversations = MessageService.setConvLastMessageAt st.conversations cid now := by
  rw [MessageService.sendMessageMock] at h
  cases session with
  | none => simp [getUserId] at h
  | some u =>
    simp only [getUserId] at h
    by_cases hu : u = ""
    · rw [if_pos hu] at h; simp at h
    · rw [if_neg hu] at h
      cases hf : st.conversations.find? (fun conv => conv.id == cid) with
      | none => rw [hf] at h; simp at h
      | some conv =>
        rw [hf] at h
        simp only [Except.ok.injEq, Prod.mk.injEq] at h
        obtain ⟨hm, hst⟩ := h
        subst hm
        subst hst
        exact ⟨rfl, rfl, rfl⟩

/-- Shape of the state produced by a successful fixture
`markMessagesAsRead`. -/
theorem markMessagesAsReadMock_ok_state {session : Option String} {cid : String}
    {st st2 : MsgState}
    (h : MessageService.markMessagesAsReadMock session cid st = .ok st2) :
    st2.messages.map Message.id = st.messages.map Message.id ∧
    st2.messages.length = st.messages.length ∧
    st2.conversations = st.conversations := by
  rw [MessageService.markMessagesAsReadMock] at h
  cases session with
  | none => simp [getUserId] at h
  | some u =>
    simp only [getUserId] at h
    by_cases hu : u = ""
    · rw [if_pos hu] at h; simp at h
    · rw [if_neg hu] at h
      simp only [Except.ok.injEq] at h
      subst h
      refine ⟨?_, by simp, rfl⟩
      rw [List.map_map]
      apply List.map_congr_left
      intro msg _
      by_cases h1 : msg.conversation_id = cid <;> by_cases h2 : msg.receiver_id = u <;>
        simp [h1, h2]

/-- Shape of the state produced by a successful fixture
`startConversation`. -/
theorem startConversationMock_ok_state {session : Option String}
    {lid sid msg now : String} {st : MsgState} {c : Conversation} {st2 : MsgState}
    (h : MessageService.startConversationMock session lid sid msg now st = .ok (c, st2)) :
    (∃ m : Message, st2.messages = st.messages ++ [m] ∧
      m.id = mkMsgId (st.messages.length + 1)) ∧
    (st2.conversations.map Conversation.id = st.conversations.map Conversation.id ∨
     ∃ c2 : Conversation, st2.conversations = st.conversations ++ [c2] ∧
       c2.id = mkConvId (st.conversations.length + 1)) := by
  rw [MessageService.startConversationMock] at h
  cases session with
  | none => simp [getUserId] at h
  | some u =>
    simp only [getUserId] at h
    by_cases hu : u = ""
    · rw [if_pos hu] at h; simp at h
    · rw [if_neg hu] at h
      by_cases hs : (u == sid) = true
      · rw [if_pos hs] at h; simp at h
      · rw [if_neg hs] at h
        cases hf : st.conversations.find? (fun conv =>
            conv.listing_id == lid && conv.buyer_id == u && conv.seller_id == sid) with
        | some ex =>
          rw [hf] at h
          simp only [Except.ok.injEq, Prod.mk.injEq] at h
          obtain ⟨_, hst⟩ := h
          subst hst
          refine ⟨⟨_, rfl, rfl⟩, Or.inl ?_⟩
          exact setConvLastMessageAt_map_id st.conversations ex.id now
        | none =>
          rw [hf] at h
          simp only [Except.ok.injEq, Prod.mk.injEq] at h
          obtain ⟨_, hst⟩ := h
          subst hst
          exact ⟨⟨_, rfl, rfl⟩, Or.inr ⟨_, rfl, rfl⟩⟩

/-- Every fixture-path call preserves the store invariant. -/
theorem msgInv_applyMsgOp (st : MsgState) (op : MessageService.MsgOp)
    (h : MessageService.MsgInv st) : MessageService.MsgInv (MessageService.applyMsgOp st op) := by
  obtain ⟨hml, hcl, hmi, hci⟩ := h
  cases op with
  | send session cid content now =>
    rw [MessageService.applyMsgOp]
    cases hr : MessageService.sendMessageMock session cid content now st with
    | error e => exact ⟨hml, hcl, hmi, hci⟩
    | ok p =>
      obtain ⟨m, st2⟩ := p
      show MessageService.MsgInv st2
      obtain ⟨hmsgs, hid, hconvs⟩ := sendMessageMock_ok_state hr
      refine ⟨?_, ?_, ?_, ?_⟩
      · rw [hmsgs]; simp; omega
      · rw [hconvs, setConvLastMessageAt_length]; exact hcl
      · rw [hmsgs]
        simp only [List.map_append, List.length_append, List.map_cons, List.map_nil,
          List.length_cons, List.length_nil]
        rw [hmi, hid]
        rw [show st.messages.length + (0 + 1) = st.messages.length + 1 by omega,
          List.range_succ, List.map_append]
        congr 1
        simp only [List.map_cons, List.map_nil, List.cons.injEq, and_true]
        rw [MessageService.msgIdAt, if_neg (by omega)]
      · rw [hconvs, setConvLastMessageAt_map_id, setConvLastMessageAt_length]
        exact hci
  | markRead session cid =>
    rw [MessageService.applyMsgOp]
    cases hr : MessageService.markMessagesAsReadMock session cid st with
    | error e => exact ⟨hml, hcl, hmi, hci⟩
    | ok st2 =>
      show MessageService.MsgInv st2
      obtain ⟨hids, hlen, hconvs⟩ := markMessagesAsReadMock_ok_state hr
      exact ⟨by rw [hlen]; exact hml, by rw [hconvs]; exact hcl,
        by rw [hids, hlen]; exact hmi, by rw [hconvs]; exact hci⟩
  | start session lid sid msg now =>
    rw [MessageService.applyMsgOp]
    cases hr : MessageService.startConversationMock session lid sid msg now st with
    | error e => exact ⟨hml, hcl, hmi, hci⟩
    | ok p =>
      obtain ⟨c, st2⟩ := p
      show MessageService.MsgInv st2
      obtain ⟨⟨m, hmsgs, hid⟩, hcase⟩ := startConversationMock_ok_state hr
      have hmlen : st2.messages.length = st.messages.length + 1 := by rw [hmsgs]; simp
      have hmsgIds : st2.messages.map Message.id =
          (List.range st2.messages.length).map MessageService.msgIdAt := by
        rw [hmsgs]
        simp only [List.map_append, List.length_append, List.map_cons, List.map_nil,
          List.length_cons, List.length_nil]
        rw [hmi, hid]
        rw [show st.messages.length + (0 + 1) = st.messages.length + 1 by omega,
          List.range_succ, List.map_append]
        congr 1
        simp only [List.map_cons, List.map_nil, List.cons.injEq, and_true]
        rw [MessageService.msgIdAt, if_neg (by omega)]
      rcases hcase with hsame | ⟨c2, hconvs, hcid⟩
      · have hclen : st2.conversations.length = st.conversations.length := by
          have := congrArg List.length hsame
          simpa using this
        exact ⟨by omega, by rw [hclen]; exact hcl, hmsgIds,
          by rw [hsame, hclen]; exact hci⟩
      · have hclen : st2.conversations.length = st.conversations.length + 1 := by
          rw [hconvs]; simp
        refine ⟨by omega, by omega, hmsgIds, ?_⟩
        rw [hconvs]
        simp only [List.map_append, List.map_cons, List.map_nil]
        rw [hci, hcid]
        rw [show (st.conversations ++ [c2]).length = st.conversations.length + 1 by simp,
          List.range_succ, List.map_append]
        congr 1
        simp only [List.map_cons, List.map_nil, List.cons.injEq, and_true]
        rw [MessageService.convIdAt, if_neg (by omega)]

/-- The invariant holds in the seeded store. -/
theorem msgInv_seed : MessageService.MsgInv MessageService.seedMsgState := by
  refine ⟨by decide, by decide, ?_, ?_⟩ <;> decide

/-- The invariant holds in every reachable store. -/
theorem msgInv_reachable {st : MsgState} (h : MessageService.MsgReachable st) :
    MessageService.MsgInv st := by
  obtain ⟨ops, hops⟩ := h
  subst hops
  rw [MessageService.runMsgOps]
  have : ∀ (ops : List MessageService.MsgOp) (st0 : MsgState), MessageService.MsgInv st0 →
      MessageService.MsgInv (ops.foldl MessageService.applyMsgOp st0) := by
    intro ops
    induction ops with
    | nil => intro st0 h0; exact h0
    | cons op rest ih =>
      intro st0 h0
      exact ih _ (msgInv_applyMsgOp st0 op h0)
  exact this ops MessageService.seedMsgState msgInv_seed

/-! ## Operation unfolding lemmas -/

/-- `find?` skips a prefix with no match. -/
theorem find?_append_none {p : α → Bool} :
    ∀ {l1 : List α} (l2 : List α), l1.find? p = none → (l1 ++ l2).find? p = l2.find? p := by
  intro l1
  induction l1 with
  | nil => intro l2 _; rfl
  | cons a as ih =>
    intro l2 h
    by_cases ha : (p a) = true
    · rw [show List.find? p (a :: as) = some a by simp [List.find?, ha]] at h
      simp at h
    · rw [show List.find? p (a :: as) = List.find? p as by simp [List.find?, ha]] at h
      rw [show List.find? p ((a :: as) ++ l2) = List.find? p (as ++ l2) by
        simp [List.find?, ha]]
      exact ih l2 h

/-- A successful fixture `sendMessage` on a found conversation, in full. -/
theorem sendMessageMock_found {st : MsgState} {u cid content now : String}
    {conv : Conversation} (hu : u ≠ "")
    (hf : st.conversations.find? (fun c => c.id == cid) = some conv) :
    MessageService.sendMessageMock (some u) cid content now st =
      .ok
        ({ id := mkMsgId (st.messages.length + 1), conversation_id := cid,
           sender_id := u,
           receiver_id := if conv.buyer_id == u then conv.seller_id else conv.buyer_id,
           content := content, created_at := now, read := false },
         { conversations := MessageService.setConvLastMessageAt st.conversations cid now,
           messages := st.messages ++
             [{ id := mkMsgId (st.messages.length + 1), conversation_id := cid,
                sender_id := u,
                receiver_id := if conv.buyer_id == u then conv.seller_id else conv.buyer_id,
                content := content, created_at := now, read := false }] }) := by
  rw [MessageService.sendMessageMock]
  simp only [getUserId]
  rw [if_neg hu, hf]

/-- A fixture `sendMessage` on an unknown conversation rejects. -/
theorem sendMessageMock_not_found {st : MsgState} {u cid content now : String}
    (hu : u ≠ "")
    (hf : st.conversations.find? (fun c => c.id == cid) = none) :
    MessageService.sendMessageMock (some u) cid content now st =
      .error "Conversation not found" := by
  rw [MessageService.sendMessageMock]
  simp only [getUserId]
  rw [if_neg hu, hf]

/-- A successful fixture `startConversation` with no existing conversation
for the key, in full. -/
theorem startConversationMock_new {st : MsgState} {u l s msg now : String}
    (hu : u ≠ "") (hs : (u == s) = false)
    (hf : st.conversations.find? (fun c =>
      c.listing_id == l && c.buyer_id == u && c.seller_id == s) = none) :
    MessageService.startConversationMock (some u) l s msg now st =
      .ok
        ({ id := mkConvId (st.conversations.length + 1), listing_id := l, buyer_id := u,
           seller_id := s, created_at := now, last_message_at := now, is_active := true },
         { conversations := st.conversations ++
             [{ id := mkConvId (st.conversations.length + 1), listing_id := l, buyer_id := u,
                seller_id := s, created_at := now, last_message_at := now, is_active := true }],
           messages := st.messages ++
             [{ id := mkMsgId (st.messages.length + 1),
                conversation_id := mkConvId (st.conversations.length + 1),
                sender_id := u, receiver_id := s, content := msg, created_at := now,
                read := false }] }) := by
  rw [MessageService.startConversationMock]
  simp only [getUserId]
  rw [if_neg hu, if_neg (by simp [hs]), hf]

/-- A successful fixture `startConversation` that appends to an existing
conversation, in full. -/
theorem startConversationMock_existing {st : MsgState} {u l s msg now : String}
    {ex : Conversation} (hu : u ≠ "") (hs : (u == s) = false)
    (hf : st.conversations.find? (fun c =>
      c.listing_id == l && c.buyer_id == u && c.seller_id == s) = some ex) :
    MessageService.startConversationMock (some u) l s msg now st =
      .ok
        ({ ex with last_message_at := now },
         { conversations := MessageService.setConvLastMessageAt st.conversations ex.id now,
           messages := st.messages ++
             [{ id := mkMsgId (st.messages.length + 1), conversation_id := ex.id,
                sender_id := u, receiver_id := s, content := msg, created_at := now,
                read := false }] }) := by
  rw [MessageService.startConversationMock]
  simp only [getUserId]
  rw [if_neg hu, if_neg (by simp [hs]), hf]

/-! ## Claim theorems -/

/-- Claim C1 (evidence of the divergence): with the messaging fallback
flag `DETECTED_MISSING_TABLES` set, the read operations
(`getConversations`, `getMessages`, `getUnreadCount`) route to the
fixture store, but the mutating operations (`sendMessage`,
`markMessagesAsRead`, `startConversation`) still take the remote path:
their guards test only the compile-time `USE_MOCK_DATA` constant, so the
claimed fallback stickiness fails for them. -/
theorem claim_c1_mutations_bypass_fallback_flag :
    MessageService.sendMessagePath true = MessageService.ServePath.remote ∧
    MessageService.markMessagesAsReadPath true = MessageService.ServePath.remote ∧
    MessageService.startConversationPath true = MessageService.ServePath.remote ∧
    MessageService.getConversationsPath true = MessageService.ServePath.fixture ∧
    MessageService.getMessagesPath true = MessageService.ServePath.fixture ∧
    MessageService.getUnreadCountPath true = MessageService.ServePath.fixture := by
  decide

/-- Claim C2 (evidence of the divergence): for an anonymous caller
(no session) `isSavedItem`, `getSavedItems` and `getUnreadCount` do NOT
degrade to `false` / `[]` / `0`: `getUserId()` throws
`Not authenticated` before the degrade guards can run, and that error
propagates to the caller. -/
theorem claim_c2_anonymous_propagates_auth_error :
    ∀ (st : SavedState) (mst : MsgState) (books : List BookListing)
      (bookId : String) (t : SavedItemType),
      SavedItemsService.isSavedItem none bookId t st = .error "Not authenticated" ∧
      SavedItemsService.getSavedItems none t st books = .error "Not authenticated" ∧
      MessageService.getUnreadCountMock none mst = .error "Not authenticated" := by
  intro st mst books bookId t
  exact ⟨rfl, rfl, rfl⟩

/-- Claim C9: every listing query (`getListings`, `searchListings`,
`getListingsByCategory`, `getListingsBySeller`, `getFilteredListings`)
returns its rows ordered by `created_at` descending, for every state of
the backing `book_listings` table. -/
theorem claim_c9_listings_ordered_desc :
    ∀ (table : List BookListing) (term cat sid : String) (filters : BookFilterOptions),
      SortedByDesc (fun l => l.created_at) (BookService.getListings table) ∧
      SortedByDesc (fun l => l.created_at) (BookService.searchListings term table) ∧
      SortedByDesc (fun l => l.created_at) (BookService.getListingsByCategory cat table) ∧
      SortedByDesc (fun l => l.created_at) (BookService.getListingsBySeller sid table) ∧
      SortedByDesc (fun l => l.created_at) (BookService.getFilteredListings filters table) := by
  intro table term cat sid filters
  exact ⟨sortByDesc_sorted _ _, sortByDesc_sorted _ _, sortByDesc_sorted _ _,
    sortByDesc_sorted _ _, sortByDesc_sorted _ _⟩

/-- Claim C10: in every reachable fixture-store state, message ids are
pairwise distinct and conversation ids are pairwise distinct — new
entities get ids derived from the current collection length, collections
only grow, and the resulting ids never collide with seeded or earlier
generated ids. -/
theorem claim_c10_fixture_ids_distinct (st : MsgState)
    (h : MessageService.MsgReachable st) :
    (st.messages.map Message.id).Nodup ∧ (st.conversations.map Conversation.id).Nodup := by
  obtain ⟨_, _, hmi, hci⟩ := msgInv_reachable h
  constructor
  · rw [hmi]
    exact (List.nodup_range _).map (fun a b => msgIdAt_inj a b)
  · rw [hci]
    exact (List.nodup_range _).map (fun a b => convIdAt_inj a b)

/-- Witness for C10: a concrete reachable state (seed store after one
`startConversation` and one `sendMessage`) has pairwise-distinct ids. -/
theorem claim_c10_witness :
    ((MessageService.runMsgOps
        [MessageService.MsgOp.start (some "user-003") "book-001" "user-001" "hello"
          "2024-01-01T00:00:00Z",
         MessageService.MsgOp.send (some "user-001") "conv-001" "hi there"
          "2024-01-02T00:00:00Z"]).messages.map Message.id).Nodup ∧
    ((MessageService.runMsgOps
        [MessageService.MsgOp.start (some "user-003") "book-001" "user-001" "hello"
          "2024-01-01T00:00:00Z",
         MessageService.MsgOp.send (some "user-001") "conv-001" "hi there"
          "2024-01-02T00:00:00Z"]).conversations.map Conversation.id).Nodup :=
  claim_c10_fixture_ids_distinct _ ⟨_, rfl⟩

/-- Claim C4: for a signed-in user `u`, every conversation returned by
the fixture `getConversations` carries an `unreadCount` equal to the
number of messages of that conversation with `receiver_id = u` and
`read = false`, and the fixture `getUnreadCount` equals the number of
such messages across all conversations. -/
theorem claim_c4_unread_count_correct (u : String) (st : MsgState) (hu : u ≠ "") :
    (∃ r, MessageService.getConversationsMock (some u) st = .ok r ∧
      List.Forall (fun e : ConversationWithDetails =>
        e.unreadCount = (st.messages.filter (fun msg =>
          msg.conversation_id == e.id && msg.receiver_id == u && !msg.read)).length) r) ∧
    MessageService.getUnreadCountMock (some u) st =
      .ok (st.messages.filter (fun msg => msg.receiver_id == u && !msg.read)).length := by
  constructor
  · refine ⟨_, rfl, ?_⟩
    rw [List.forall_iff_forall_mem]
    intro e he
    rw [mem_sortByDesc] at he
    obtain ⟨conv, _, rfl⟩ := List.mem_map.mp he
    rfl
  · rw [MessageService.getUnreadCountMock]
    simp only [getUserId]
    rw [if_neg hu]

/-- Witness for C4: the seed store and user `user-001`. -/
theorem claim_c4_witness :
    ("user-001" : String) ≠ "" ∧
    ((∃ r, MessageService.getConversationsMock (some "user-001")
          MessageService.seedMsgState = .ok r ∧
        List.Forall (fun e : ConversationWithDetails =>
          e.unreadCount = (MessageService.seedMsgState.messages.filter (fun msg =>
            msg.conversation_id == e.id && msg.receiver_id == "user-001" &&
            !msg.read)).length) r) ∧
      MessageService.getUnreadCountMock (some "user-001") MessageService.seedMsgState =
        .ok (MessageService.seedMsgState.messages.filter (fun msg =>
          msg.receiver_id == "user-001" && !msg.read)).length) :=
  ⟨by decide, claim_c4_unread_count_correct "user-001" MessageService.seedMsgState (by decide)⟩

/-- Claim C5: saved-item membership is idempotent — adding the same
(user, book, type) twice leaves the same state as adding it once, and
removing a non-member leaves the state untouched. -/
theorem claim_c5_saved_item_idempotent :
    (∀ (session : Option String) (b : String) (t : SavedItemType) (st : SavedState),
      (SavedItemsService.addSavedItem session b t st).bind
          (SavedItemsService.addSavedItem session b t) =
        SavedItemsService.addSavedItem session b t st) ∧
    (∀ (u b : String) (t : SavedItemType) (st : SavedState),
      u ≠ "" → SavedItemsService.savedMem st u b t = false →
      SavedItemsService.removeSavedItem (some u) b t st = .ok st) := by
  constructor
  · intro session b t st
    cases session with
    | none => rfl
    | some u =>
      by_cases hu : u = ""
      · rw [SavedItemsService.addSavedItem]
        simp only [getUserId]
        rw [if_pos hu]
        rfl
      · cases t with
        | FAVORITE =>
          have h1 : SavedItemsService.addSavedItem (some u) b SavedItemType.FAVORITE st =
              .ok { st with favorites := (Function.update st.favorites u
                (if (st.favorites u).contains b then st.favorites u
                 else st.favorites u ++ [b])) } := by
            rw [SavedItemsService.addSavedItem]
            simp only [getUserId]
            rw [if_neg hu]
          rw [h1]
          show SavedItemsService.addSavedItem (some u) b SavedItemType.FAVORITE
            { st with favorites := (Function.update st.favorites u
              (if (st.favorites u).contains b then st.favorites u
               else st.favorites u ++ [b])) } = _
          rw [SavedItemsService.addSavedItem]
          simp only [getUserId]
          rw [if_neg hu]
          have hcontains : ((Function.update st.favorites u
              (if (st.favorites u).contains b then st.favorites u
               else st.favorites u ++ [b])) u).contains b = true := by
            rw [Function.update_same]
            by_cases hc : (st.favorites u).contains b = true
            · rw [if_pos hc]; exact hc
            · rw [if_neg hc]
              exact List.elem_eq_true_of_mem (List.mem_append_right _ (by simp))
          rw [if_pos hcontains, Function.update_eq_self]
        | WISHLIST =>
          have h1 : SavedItemsService.addSavedItem (some u) b SavedItemType.WISHLIST st =
              .ok { st with wishlist := (Function.update st.wishlist u
                (if (st.wishlist u).contains b then st.wishlist u
                 else st.wishlist u ++ [b])) } := by
            rw [SavedItemsService.addSavedItem]
            simp only [getUserId]
            rw [if_neg hu]
          rw [h1]
          show SavedItemsService.addSavedItem (some u) b SavedItemType.WISHLIST
            { st with wishlist := (Function.update st.wishlist u
              (if (st.wishlist u).contains b then st.wishlist u
               else st.wishlist u ++ [b])) } = _
          rw [SavedItemsService.addSavedItem]
          simp only [getUserId]
          rw [if_neg hu]
          have hcontains : ((Function.update st.wishlist u
              (if (st.wishlist u).contains b then st.wishlist u
               else st.wishlist u ++ [b])) u).contains b = true := by
            rw [Function.update_same]
            by_cases hc : (st.wishlist u).contains b = true
            · rw [if_pos hc]; exact hc
            · rw [if_neg hc]
              exact List.elem_eq_true_of_mem (List.mem_append_right _ (by simp))
          rw [if_pos hcontains, Function.update_eq_self]
  · intro u b t st hu hmem
    cases t with
    | FAVORITE =>
      rw [SavedItemsService.removeSavedItem]
      simp only [getUserId]
      rw [if_neg hu]
      have hb : b ∉ st.favorites u := by
        intro hmem2
        rw [SavedItemsService.savedMem] at hmem
        have hx : (st.favorites u).contains b = true := List.elem_eq_true_of_mem hmem2
        rw [hx] at hmem
        exact Bool.true_eq_false.mp hmem
      have hfilter : (st.favorites u).filter (fun id => id != b) = st.favorites u := by
        apply List.filter_eq_self.mpr
        intro x hx
        simp only [bne_iff_ne, ne_eq, decide_eq_true_eq]
        intro hxb
        exact hb (hxb ▸ hx)
      rw [hfilter, Function.update_eq_self]
    | WISHLIST =>
      rw [SavedItemsService.removeSavedItem]
      simp only [getUserId]
      rw [if_neg hu]
      have hb : b ∉ st.wishlist u := by
        intro hmem2
        rw [SavedItemsService.savedMem] at hmem
        have hx : (st.wishlist u).contains b = true := List.elem_eq_true_of_mem hmem2
        rw [hx] at hmem
        exact Bool.true_eq_false.mp hmem
      have hfilter : (st.wishlist u).filter (fun id => id != b) = st.wishlist u := by
        apply List.filter_eq_self.mpr
        intro x hx
        simp only [bne_iff_ne, ne_eq, decide_eq_true_eq]
        intro hxb
        exact hb (hxb ▸ hx)
      rw [hfilter, Function.update_eq_self]

/-- Witness for C5: a fresh user and the empty saved-items store. -/
theorem claim_c5_witness :
    ("user-001" : String) ≠ "" ∧
    SavedItemsService.savedMem SavedItemsService.seedSavedState "user-001" "book-001"
      SavedItemType.FAVORITE = false ∧
    (SavedItemsService.addSavedItem (some "user-001") "book-001" SavedItemType.FAVORITE
        SavedItemsService.seedSavedState).bind
      (SavedItemsService.addSavedItem (some "user-001") "book-001" SavedItemType.FAVORITE) =
      SavedItemsService.addSavedItem (some "user-001") "book-001" SavedItemType.FAVORITE
        SavedItemsService.seedSavedState ∧
    SavedItemsService.removeSavedItem (some "user-001") "book-001" SavedItemType.FAVORITE
        SavedItemsService.seedSavedState = .ok SavedItemsService.seedSavedState :=
  ⟨by decide, by decide,
    claim_c5_saved_item_idempotent.1 (some "user-001") "book-001" SavedItemType.FAVORITE
      SavedItemsService.seedSavedState,
    claim_c5_saved_item_idempotent.2 "user-001" "book-001" SavedItemType.FAVORITE
      SavedItemsService.seedSavedState (by decide) (by decide)⟩

/-- Claim C6: for a signed-in participant of an existing conversation,
the fixture `sendMessage` inserts a message whose `receiver_id` is the
other participant and whose `read` flag is `false`, and bumps that
conversation's `last_message_at` to the message's timestamp; on an
unknown conversation id the call rejects and the store is untouched. -/
theorem claim_c6_send_message :
    (∀ (st : MsgState) (u cid content now : String) (conv : Conversation),
      u ≠ "" →
      st.conversations.find? (fun c => c.id == cid) = some conv →
      conv.buyer_id ≠ conv.seller_id →
      (u = conv.buyer_id ∨ u = conv.seller_id) →
      ∃ msg st2,
        MessageService.sendMessageMock (some u) cid content now st = .ok (msg, st2) ∧
        msg.read = false ∧ msg.sender_id = u ∧ msg.created_at = now ∧
        msg.content = content ∧ msg.receiver_id ≠ u ∧
        (msg.receiver_id = conv.buyer_id ∨ msg.receiver_id = conv.seller_id) ∧
        st2.messages = st.messages ++ [msg] ∧
        st2.conversations.find? (fun c => c.id == cid) =
          some { conv with last_message_at := now }) ∧
    (∀ (st : MsgState) (u cid content now : String),
      u ≠ "" →
      st.conversations.find? (fun c => c.id == cid) = none →
      MessageService.sendMessageMock (some u) cid content now st =
        .error "Conversation not found" ∧
      MessageService.applyMsgOp st (MessageService.MsgOp.send (some u) cid content now) = st) := by
  constructor
  · intro st u cid content now conv hu hf hbs hpart
    refine ⟨_, _, sendMessageMock_found hu hf, rfl, rfl, rfl, rfl, ?_, ?_, rfl, ?_⟩
    · -- receiver differs from the sender
      show (if conv.buyer_id == u then conv.seller_id else conv.buyer_id) ≠ u
      by_cases hbu : (conv.buyer_id == u) = true
      · rw [if_pos hbu]
        intro hc
        exact hbs (by rw [beq_iff_eq.mp hbu, hc])
      · rw [if_neg hbu]
        intro hc
        exact hbu (by simp [hc])
    · -- receiver is one of the two participants
      show (if conv.buyer_id == u then conv.seller_id else conv.buyer_id) = conv.buyer_id ∨
        (if conv.buyer_id == u then conv.seller_id else conv.buyer_id) = conv.seller_id
      by_cases hbu : (conv.buyer_id == u) = true
      · rw [if_pos hbu]; right; rfl
      · rw [if_neg hbu]; left; rfl
    · -- the conversation's last_message_at is bumped
      exact setConvLastMessageAt_find? hf
  · intro st u cid content now hu hf
    refine ⟨sendMessageMock_not_found hu hf, ?_⟩
    rw [MessageService.applyMsgOp, sendMessageMock_not_found hu hf]

/-- Witness for C6: `user-001` (the seller of seed conversation
`conv-001`) sends a message, which goes to the buyer `user-002` unread;
sending into the unknown `conv-999` rejects. -/
theorem claim_c6_witness :
    ("user-001" : String) ≠ "" ∧
    MessageService.seedMsgState.conversations.find? (fun c => c.id == "conv-001") =
      some { id := "conv-001", listing_id := "book-001", buyer_id := "user-002",
             seller_id := "user-001", created_at := "2023-08-10T09:15:00Z",
             last_message_at := "2023-08-12T14:30:00Z", is_active := true } ∧
    (∃ msg st2,
      MessageService.sendMessageMock (some "user-001") "conv-001" "hello"
        "2024-01-01T00:00:00Z" MessageService.seedMsgState = .ok (msg, st2) ∧
      msg.read = false ∧ msg.receiver_id = "user-002") ∧
    MessageService.seedMsgState.conversations.find? (fun c => c.id == "conv-999") = none ∧
    MessageService.sendMessageMock (some "user-001") "conv-999" "hello"
      "2024-01-01T00:00:00Z" MessageService.seedMsgState =
      .error "Conversation not found" := by
  refine ⟨by decide, by decide, ?_, by decide,
    (claim_c6_send_message.2 MessageService.seedMsgState "user-001" "conv-999" "hello"
      "2024-01-01T00:00:00Z" (by decide) (by decide)).1⟩
  obtain ⟨msg, st2, heq, hread, _, _, _, hne, hor, _, _⟩ :=
    claim_c6_send_message.1 MessageService.seedMsgState "user-001" "conv-001" "hello"
      "2024-01-01T00:00:00Z"
      { id := "conv-001", listing_id := "book-001", buyer_id := "user-002",
        seller_id := "user-001", created_at := "2023-08-10T09:15:00Z",
        last_message_at := "2023-08-12T14:30:00Z", is_active := true }
      (by decide) (by decide) (by decide) (Or.inr rfl)
  refine ⟨msg, st2, heq, hread, ?_⟩
  rcases hor with h | h
  · exact h
  · exact absurd h hne

/-- Claim C7: the fixture `updateProfile` changes only the provided
fields — `id`, `email`, `joinDate` and `rating` (and every field not in
the update) keep the stored user's values — and a call for an unknown
user id fails with `User not found` (the store is never written by this
path). -/
theorem claim_c7_update_profile :
    (∀ (users : List MockUser) (uid : String) (upd : UserProfileUpdate) (user : MockUser),
      users.find? (fun x => x.id == uid) = some user →
      ∃ r, UserService.updateProfileMock users uid upd = .ok r ∧
        r.id = user.id ∧ r.email = user.email ∧ r.joinDate = user.joinDate ∧
        r.rating = user.rating ∧
        (upd.name = none → r.name = user.name) ∧
        (∀ v, upd.name = some v → r.name = v) ∧
        (upd.profileImage = none → r.profileImage = user.profileImage) ∧
        (∀ v, upd.profileImage = some v → r.profileImage = some v) ∧
        (upd.bio = none → r.bio = user.bio) ∧
        (∀ v, upd.bio = some v → r.bio = some v) ∧
        (upd.location = none → r.location = user.location) ∧
        (∀ v, upd.location = some v → r.location = some v) ∧
        (upd.phone = none → r.phone = user.phone) ∧
        (∀ v, upd.phone = some v → r.phone = some v)) ∧
    (∀ (users : List MockUser) (uid : String) (upd : UserProfileUpdate),
      users.find? (fun x => x.id == uid) = none →
      UserService.updateProfileMock users uid upd = .error "User not found") := by
  constructor
  · intro users uid upd user hf
    refine ⟨{ user with
        name := upd.name.getD user.name,
        profileImage := match upd.profileImage with
          | some v => some v
          | none => user.profileImage,
        bio := match upd.bio with
          | some v => some v
          | none => user.bio,
        location := match upd.location with
          | some v => some v
          | none => user.location,
        phone := match upd.phone with
          | some v => some v
          | none => user.phone },
      by rw [UserService.updateProfileMock, hf], rfl, rfl, rfl, rfl,
      ?_, ?_, ?_, ?_, ?_, ?_, ?_, ?_, ?_, ?_⟩
    · intro h
      show upd.name.getD user.name = user.name
      rw [h]
      rfl
    · intro v hv
      show upd.name.getD user.name = v
      rw [hv]
      rfl
    · intro h
      show (match upd.profileImage with
        | some v => some v
        | none => user.profileImage) = user.profileImage
      rw [h]
    · intro v hv
      show (match upd.profileImage with
        | some v => some v
        | none => user.profileImage) = some v
      rw [hv]
    · intro h
      show (match upd.bio with
        | some v => some v
        | none => user.bio) = user.bio
      rw [h]
    · intro v hv
      show (match upd.bio with
        | some v => some v
        | none => user.bio) = some v
      rw [hv]
    · intro h
      show (match upd.location with
        | some v => some v
        | none => user.location) = user.location
      rw [h]
    · intro v hv
      show (match upd.location with
        | some v => some v
        | none => user.location) = some v
      rw [hv]
    · intro h
      show (match upd.phone with
        | some v => some v
        | none => user.phone) = user.phone
      rw [h]
    · intro v hv
      show (match upd.phone with
        | some v => some v
        | none => user.phone) = some v
      rw [hv]
  · intro users uid upd hf
    rw [UserService.updateProfileMock, hf]

/-- Witness for C7: updating `user-003`'s name in the seed store keeps
email, join date and rating; updating the unknown `user-999` fails. -/
theorem claim_c7_witness :
    mockUsers.find? (fun x => x.id == "user-999") = none ∧
    UserService.updateProfileMock mockUsers "user-999"
      { name := none, profileImage := none, bio := none, location := none, phone := none } =
      .error "User not found" ∧
    mockUsers.find? (fun x => x.id == "user-003") = some
      { id := "user-003", email := "michael.rodriguez@example.com",
        name := "Michael Rodriguez",
        profileImage := some "https://randomuser.me/api/portraits/men/45.jpg",
        joinDate := "2023-03-10T09:45:00Z", rating := 420,
        bio := some "History teacher and collector of historical texts and biographies.",
        location := some "Chicago, IL", phone := some "(555) 345-6789" } ∧
    (∃ r, UserService.updateProfileMock mockUsers "user-003"
        { name := some "Mike R.", profileImage := none, bio := none, location := none,
          phone := none } = .ok r ∧
      r.name = "Mike R." ∧ r.email = "michael.rodriguez@example.com" ∧ r.rating = 420) := by
  refine ⟨by decide,
    claim_c7_update_profile.2 mockUsers "user-999"
      { name := none, profileImage := none, bio := none, location := none, phone := none }
      (by decide),
    by decide, ?_⟩
  obtain ⟨r, hr, _, hemail, _, hrating, _, hname, _⟩ :=
    claim_c7_update_profile.1 mockUsers "user-003"
      { name := some "Mike R.", profileImage := none, bio := none, location := none,
        phone := none }
      { id := "user-003", email := "michael.rodriguez@example.com",
        name := "Michael Rodriguez",
        profileImage := some "https://randomuser.me/api/portraits/men/45.jpg",
        joinDate := "2023-03-10T09:45:00Z", rating := 420,
        bio := some "History teacher and collector of historical texts and biographies.",
        location := some "Chicago, IL", phone := some "(555) 345-6789" }
      (by decide)
  exact ⟨r, hr, hname "Mike R." rfl, hemail, hrating⟩

/-- Claim C8: `getFilteredListings` returns exactly the rows of the
backing table that satisfy the conjunction of the provided predicates
(`specFilterPred`, worded as the specification states it), an omitted
predicate imposing no constraint; with every predicate omitted it
returns every listing. -/
theorem claim_c8_filter_conjunction :
    (∀ (filters : BookFilterOptions) (table : List BookListing),
      List.Perm (BookService.getFilteredListings filters table)
        (table.filter (BookService.specFilterPred filters))) ∧
    (∀ table : List BookListing,
      List.Perm (BookService.getFilteredListings BookService.noFilters table) table) := by
  constructor
  · intro filters table
    exact sortByDesc_perm _
  · intro table
    have h : table.filter (BookService.remoteFilterPred BookService.noFilters) = table :=
      List.filter_eq_self.mpr (fun a _ => rfl)
    have h2 : List.Perm (table.filter (BookService.remoteFilterPred BookService.noFilters))
        table := by
      rw [h]
    exact (sortByDesc_perm _).trans h2

/-- Claim C3: two fixture `startConversation` calls by the same buyer for
the same (listing, seller) produce exactly one conversation for that key,
holding exactly the two sent messages; the second call appends its
message and bumps that conversation's `last_message_at` to the second
message's timestamp. -/
theorem claim_c3_conversation_dedup
    (st : MsgState) (u l s m1 m2 t1 t2 : String)
    (hu : u ≠ "") (hus : (u == s) = false)
    (hnone : st.conversations.filter (fun c =>
      c.listing_id == l && c.buyer_id == u && c.seller_id == s) = [])
    (hfreshc : ∀ c ∈ st.conversations, c.id ≠ mkConvId (st.conversations.length + 1))
    (hfreshm : ∀ m ∈ st.messages, m.conversation_id ≠ mkConvId (st.conversations.length + 1)) :
    ∃ c1 st1 c2 st2,
      MessageService.startConversationMock (some u) l s m1 t1 st = .ok (c1, st1) ∧
      MessageService.startConversationMock (some u) l s m2 t2 st1 = .ok (c2, st2) ∧
      c1.listing_id = l ∧ c1.buyer_id = u ∧ c1.seller_id = s ∧
      (st2.conversations.filter (fun c =>
        c.listing_id == l && c.buyer_id == u && c.seller_id == s)).map Conversation.id
        = [c1.id] ∧
      (st2.messages.filter (fun m => m.conversation_id == c1.id)).map
        (fun m => (m.sender_id, m.content, m.created_at)) = [(u, m1, t1), (u, m2, t2)] ∧
      (∀ c ∈ st2.conversations,
        (c.listing_id == l && c.buyer_id == u && c.seller_id == s) = true →
        c.last_message_at = t2) := by
  have hallf : ∀ c ∈ st.conversations,
      (c.listing_id == l && c.buyer_id == u && c.seller_id == s) = false := by
    intro c hc
    by_cases hp : (c.listing_id == l && c.buyer_id == u && c.seller_id == s) = true
    · exfalso
      have : c ∈ st.conversations.filter (fun c =>
          c.listing_id == l && c.buyer_id == u && c.seller_id == s) :=
        List.mem_filter.mpr ⟨hc, hp⟩
      rw [hnone] at this
      simp at this
    · exact Bool.eq_false_iff.mpr hp
  have hfind1 : st.conversations.find? (fun c =>
      c.listing_id == l && c.buyer_id == u && c.seller_id == s) = none :=
    List.find?_eq_none.mpr (fun x hx hpx => by rw [hallf x hx] at hpx; simp at hpx)
  let C1 : Conversation :=
    { id := mkConvId (st.conversations.length + 1), listing_id := l, buyer_id := u,
      seller_id := s, created_at := t1, last_message_at := t1, is_active := true }
  let msgA : Message :=
    { id := mkMsgId (st.messages.length + 1),
      conversation_id := mkConvId (st.conversations.length + 1),
      sender_id := u, receiver_id := s, content := m1, created_at := t1, read := false }
  let ST1 : MsgState :=
    { conversations := st.conversations ++ [C1], messages := st.messages ++ [msgA] }
  have heq1 : MessageService.startConversationMock (some u) l s m1 t1 st = .ok (C1, ST1) :=
    startConversationMock_new hu hus hfind1
  have hpredC1 : (C1.listing_id == l && C1.buyer_id == u && C1.seller_id == s) = true := by
    simp [C1]
  have hfind2 : ST1.conversations.find? (fun c =>
      c.listing_id == l && c.buyer_id == u && c.seller_id == s) = some C1 := by
    show (st.conversations ++ [C1]).find? _ = some C1
    rw [find?_append_none _ hfind1]
    simp [List.find?, hpredC1]
  have heq2 : MessageService.startConversationMock (some u) l s m2 t2 ST1 =
      .ok ({ C1 with last_message_at := t2 },
        { conversations := MessageService.setConvLastMessageAt ST1.conversations C1.id t2,
          messages := ST1.messages ++
            [{ id := mkMsgId (ST1.messages.length + 1), conversation_id := C1.id,
               sender_id := u, receiver_id := s, content := m2, created_at := t2,
               read := false }] }) :=
    startConversationMock_existing hu hus hfind2
  have hsetconv : MessageService.setConvLastMessageAt ST1.conversations C1.id t2 =
      st.conversations ++ [{ C1 with last_message_at := t2 }] := by
    show MessageService.setConvLastMessageAt (st.conversations ++ [C1]) C1.id t2 = _
    apply setConvLastMessageAt_append_fresh
    intro cv hcv
    exact beq_eq_false_iff_ne.mpr (hfreshc cv hcv)
  refine ⟨C1, ST1, _, _, heq1, heq2, rfl, rfl, rfl, ?_, ?_, ?_⟩
  · -- exactly one conversation for the key, and it is the created one
    show ((MessageService.setConvLastMessageAt ST1.conversations C1.id t2).filter
      (fun c => c.listing_id == l && c.buyer_id == u && c.seller_id == s)).map
        Conversation.id = [C1.id]
    rw [hsetconv, List.filter_append, hnone]
    have hpred2 : (({ C1 with last_message_at := t2 } : Conversation).listing_id == l &&
        ({ C1 with last_message_at := t2 } : Conversation).buyer_id == u &&
        ({ C1 with last_message_at := t2 } : Conversation).seller_id == s) = true := hpredC1
    simp [List.filter, hpred2]
  · -- the conversation holds exactly the two sent messages
    show ((List.filter (fun m => m.conversation_id == C1.id)
        ((st.messages ++ [msgA]) ++
          [({ id := mkMsgId (ST1.messages.length + 1), conversation_id := C1.id,
              sender_id := u, receiver_id := s, content := m2, created_at := t2,
              read := false } : Message)])).map
        (fun m : Message => (m.sender_id, m.content, m.created_at))) =
      [(u, m1, t1), (u, m2, t2)]
    have hnilm : st.messages.filter (fun m => m.conversation_id == C1.id) = [] := by
      rw [List.filter_eq_nil_iff]
      intro m hm hpx
      exact hfreshm m hm (beq_iff_eq.mp hpx)
    have hpredA : (msgA.conversation_id == C1.id) = true := by simp [msgA, C1]
    rw [List.filter_append, List.filter_append, hnilm]
    simp [List.filter, hpredA]
  · -- every conversation for the key has the bumped timestamp
    intro c hc hp
    replace hc : c ∈ MessageService.setConvLastMessageAt ST1.conversations C1.id t2 := hc
    rw [hsetconv] at hc
    rcases List.mem_append.mp hc with hold | hnew
    · exact absurd hp (by rw [hallf c hold]; simp)
    · have : c = { C1 with last_message_at := t2 } := by simpa using hnew
      rw [this]

/-- Witness for C3: `user-003` contacts `user-002` twice about
`book-002` starting from the seeded store, where no conversation for
that key exists. -/
theorem claim_c3_witness :
    ("user-003" : String) ≠ "" ∧
    (("user-003" : String) == "user-002") = false ∧
    MessageService.seedMsgState.conversations.filter (fun c =>
      c.listing_id == "book-002" && c.buyer_id == "user-003" &&
      c.seller_id == "user-002") = [] ∧
    (∀ c ∈ MessageService.seedMsgState.conversations,
      c.id ≠ mkConvId (MessageService.seedMsgState.conversations.length + 1)) ∧
    (∀ m ∈ MessageService.seedMsgState.messages,
      m.conversation_id ≠ mkConvId (MessageService.seedMsgState.conversations.length + 1)) ∧
    (∃ c1 st1 c2 st2,
      MessageService.startConversationMock (some "user-003") "book-002" "user-002" "hi"
        "2024-01-01T10:00:00Z" MessageService.seedMsgState = .ok (c1, st1) ∧
      MessageService.startConversationMock (some "user-003") "book-002" "user-002"
        "still available?" "2024-01-02T10:00:00Z" st1 = .ok (c2, st2) ∧
      c1.listing_id = "book-002" ∧ c1.buyer_id = "user-003" ∧ c1.seller_id = "user-002" ∧
      (st2.conversations.filter (fun c =>
        c.listing_id == "book-002" && c.buyer_id == "user-003" &&
        c.seller_id == "user-002")).map Conversation.id = [c1.id] ∧
      (st2.messages.filter (fun m => m.conversation_id == c1.id)).map
        (fun m => (m.sender_id, m.content, m.created_at)) =
        [("user-003", "hi", "2024-01-01T10:00:00Z"),
         ("user-003", "still available?", "2024-01-02T10:00:00Z")] ∧
      (∀ c ∈ st2.conversations,
        (c.listing_id == "book-002" && c.buyer_id == "user-003" &&
          c.seller_id == "user-002") = true →
        c.last_message_at = "2024-01-02T10:00:00Z")) :=
  ⟨by decide, by decide, by decide, by decide, by decide,
    claim_c3_conversation_dedup MessageService.seedMsgState "user-003" "book-002"
      "user-002" "hi" "still available?" "2024-01-01T10:00:00Z" "2024-01-02T10:00:00Z"
      (by decide) (by decide) (by decide) (by decide) (by decide)⟩
